import Mathlib

/-!
# Theme cascade of `Frameworks/theme/src/theme.cc`

A shallow embedding of the style cascade of `theme.cc`: the merge operator
`decomposed_style_t::operator+=`, `blend`, the text decoders `read_color` and
`read_font_size`, the resolver `theme_t::styles_for_scope`, and the construction of a
theme from its document by `parse_styles` and `setup_styles`.

Conventions of the embedding:

* `double` / `CGFloat` values are exact rationals (`ℚ`), which differ from the
  doubles of the code by rounding only. Where rounding decides a yes or no, in the
  comparison of `color_is_dark` (theme.cc 41), the arithmetic is that of IEEE 754
  binary64: `to_double` rounds to the nearest double and `double_luma` is the sum as
  the code computes it.
* `std::string` is `List Char`; the distinguished value `NULL_STR` is `none` of
  `Option (List Char)`. The character classes of the C locale hold of ASCII characters
  only, as they do of the bytes of a `std::string`.
* Library routines the code calls (`sscanf`, `atof`, `isdigit`, `strcmp`) are
  modelled by the part of their C semantics that the calls in `theme.cc` can
  reach; each such model says so in its comment.
-/

namespace Theme

/-! ## Data model (declared in `theme.h`) -/

/-- Modelled from the spec: `bool_t` is declared in `theme.h`, which is not among
the sources; `theme.cc` uses its three values `bool_unset`, `bool_true` and
`bool_false` (spec: TriBool is unset, true or false). -/
inductive bool_t where
  | bool_unset
  | bool_true
  | bool_false
  deriving DecidableEq, Repr

open bool_t

/-- Modelled from the spec: `theme_t::color_info_t` is declared in `theme.h`, which
is not among the sources. The spec gives a color the four channels `red`, `green`,
`blue`, `alpha` plus a blank (unset) state distinct from any color value; the flag
`blank` is that state, and `theme.cc` reads the channels of non-blank colors only. -/
structure color_info_t where
  blank : Bool
  red : ℚ
  green : ℚ
  blue : ℚ
  alpha : ℚ
  deriving DecidableEq

namespace color_info_t

/-- The default constructor `color_info_t()`: the color that is not set. -/
def unset : color_info_t := ⟨true, 0, 0, 0, 1⟩

/-- The constructor `color_info_t(red, green, blue, alpha)`: a color value. -/
def rgba (red green blue alpha : ℚ) : color_info_t := ⟨false, red, green, blue, alpha⟩

/-- The method `is_blank()`. -/
def is_blank (c : color_info_t) : Bool := c.blank

end color_info_t

/-- A scope selector, kept as its source text; `scope::selector_t()` is the empty text. -/
abbrev selector_t := List Char

/-- A scope, kept as its text. -/
abbrev scope_t := List Char

/-- Modelled from the spec: `theme_t::decomposed_style_t` is declared in `theme.h`,
which is not among the sources. Its fields are the ones `theme.cc` reads and writes
(spec: StyleRule); `font_name = none` is `NULL_STR`. -/
structure decomposed_style_t where
  scope_selector : selector_t
  font_name : Option (List Char)
  font_size : ℚ
  foreground : color_info_t
  background : color_info_t
  caret : color_info_t
  selection : color_info_t
  invisibles : color_info_t
  bold : bool_t
  italic : bool_t
  underlined : bool_t
  misspelled : bool_t
  deriving DecidableEq

/-- Modelled from the spec: the constructor
`decomposed_style_t(scopeSelector, fontName = NULL_STR, fontSize = -1)` of `theme.h`:
every color blank, every tri-state field unset (spec: all fields optional/blank
except the selector; the font size sentinel is `-1`). -/
def decomposed_style_t.init (scopeSelector : selector_t) (fontName : Option (List Char))
    (fontSize : ℚ) : decomposed_style_t :=
  { scope_selector := scopeSelector, font_name := fontName, font_size := fontSize,
    foreground := color_info_t.unset, background := color_info_t.unset,
    caret := color_info_t.unset, selection := color_info_t.unset,
    invisibles := color_info_t.unset,
    bold := bool_unset, italic := bool_unset, underlined := bool_unset,
    misspelled := bool_unset }

/-! ## `blend` and `operator+=` (theme.cc 423-427, 472-489) -/

/-- The static function `blend` (theme.cc 423-427). -/
def blend (lhs rhs : color_info_t) : color_info_t :=
  let a := rhs.alpha
  let ia := 1 - rhs.alpha
  if lhs.is_blank then rhs
  else color_info_t.rgba (ia * lhs.red + a * rhs.red) (ia * lhs.green + a * rhs.green)
    (ia * lhs.blue + a * rhs.blue) lhs.alpha

/-- The operator `decomposed_style_t::operator+=` (theme.cc 472-489); `merge lhs rhs`
is the value of `lhs` after `lhs += rhs`. The selector of `lhs` is not assigned. -/
def merge (lhs rhs : decomposed_style_t) : decomposed_style_t :=
  { scope_selector := lhs.scope_selector
    font_name  := if rhs.font_name ≠ none then rhs.font_name else lhs.font_name
    font_size  := if rhs.font_size > 0 then rhs.font_size else lhs.font_size * |rhs.font_size|
    foreground := if rhs.foreground.is_blank then lhs.foreground else rhs.foreground
    background := if rhs.background.is_blank then lhs.background
                  else blend lhs.background rhs.background
    caret      := if rhs.caret.is_blank then lhs.caret else rhs.caret
    selection  := if rhs.selection.is_blank then lhs.selection else rhs.selection
    invisibles := if rhs.invisibles.is_blank then lhs.invisibles else rhs.invisibles
    bold       := if rhs.bold = bool_unset then lhs.bold else rhs.bold
    italic     := if rhs.italic = bool_unset then lhs.italic else rhs.italic
    underlined := if rhs.underlined = bool_unset then lhs.underlined else rhs.underlined
    misspelled := if rhs.misspelled = bool_unset then lhs.misspelled else rhs.misspelled }

/-! ## C library routines used by the decoders -/

/-- The C-locale `isspace`: space, and the controls `\t \n \v \f \r` (9 to 13). -/
def isspace (c : Char) : Bool := c.toNat = 32 || (9 ≤ c.toNat && c.toNat ≤ 13)

/-- The C-locale `isdigit`: `'0'` to `'9'`. -/
def isdigit (c : Char) : Bool := 48 ≤ c.toNat && c.toNat ≤ 57

/-- The C-locale `isxdigit`: `'0'`-`'9'`, `'A'`-`'F'`, `'a'`-`'f'`. -/
def isxdigit (c : Char) : Bool :=
  (48 ≤ c.toNat && c.toNat ≤ 57) || (65 ≤ c.toNat && c.toNat ≤ 70) ||
    (97 ≤ c.toNat && c.toNat ≤ 102)

/-- The value of a hexadecimal digit (0 for any other character). -/
def hexval (c : Char) : Nat :=
  if 48 ≤ c.toNat ∧ c.toNat ≤ 57 then c.toNat - 48
  else if 65 ≤ c.toNat ∧ c.toNat ≤ 70 then c.toNat - 55
  else if 97 ≤ c.toNat ∧ c.toNat ≤ 102 then c.toNat - 87
  else 0

/-- The value of a decimal digit. -/
def digitval (c : Char) : Nat := c.toNat - 48

/-- The number written by a run of hexadecimal digits. -/
def hex_value (ds : List Char) : Nat := ds.foldl (fun acc c => 16 * acc + hexval c) 0

/-- The number written by a run of decimal digits. -/
def digits_value (ds : List Char) : Nat := ds.foldl (fun acc c => 10 * acc + digitval c) 0

/-- The method `std::string::c_str()` as a C string: the characters before the first
NUL. -/
def c_str (s : List Char) : List Char := s.takeWhile (fun c => c.toNat != 0)

/-- One `%x` conversion of `sscanf` with field width `width` (1 or 2 in `theme.cc`),
storing into an `unsigned int`: white space is skipped, then an optional sign and
hexadecimal digits are read, at most `width` characters in all. The result is the
stored value and the unread input, or `none` when nothing is converted (end of input,
or no digit). With a width of at most 2 a `0x` prefix can never be followed by a digit
inside the field; as in the BSD C library of the platform `theme.cc` is written for,
`0x` then reads as the digit `0` and leaves the `x` unread. -/
def scan_hex (width : Nat) (s : List Char) : Option (Nat × List Char) :=
  match s.dropWhile isspace with
  | [] => none
  | c :: t =>
    let is_sign : Bool := (c.toNat = 43 || c.toNat = 45) && 0 < width
    let body := if is_sign then t else c :: t
    let w := if is_sign then width - 1 else width
    let ds := (body.takeWhile isxdigit).take w
    if ds.isEmpty then none
    else
      let v := hex_value ds
      some ((if is_sign && c.toNat = 45 then (2 ^ 32 - v) % 2 ^ 32 else v % 2 ^ 32),
        body.drop ds.length)

/-- Up to `n` successive `%x` conversions of width `width`: the values converted before
the first failure. -/
def scan_hex_seq (width : Nat) : Nat → List Char → List Nat
  | 0, _ => []
  | n + 1, s =>
    match scan_hex width s with
    | some (v, rest) => v :: scan_hex_seq width n rest
    | none => []

/-- The call `sscanf(str, "#%<w>x%<w>x%<w>x%<w>x", &col[0], &col[1], &col[2], &col[3])`
with `w = width`: the return value (number of conversions, or `EOF = -1` when the input
ends before the first conversion) and the array `col` afterwards (converted values
stored in order, the other elements kept). -/
def sscanf (width : Nat) (str : List Char) (col : List Nat) : Int × List Nat :=
  match str with
  | [] => (-1, col)
  | c :: t =>
    if c ≠ '#' then (0, col)
    else
      let vs := scan_hex_seq width 4 t
      ((if vs.isEmpty && (t.dropWhile isspace).isEmpty then -1 else (vs.length : Int)),
        vs ++ col.drop vs.length)

/-- The decimal exponent part `e[sign]digits` that `strtod` accepts after the mantissa;
0 when the input does not continue with a complete exponent. -/
def parse_exponent (s : List Char) : Int :=
  match s with
  | c :: t =>
    if c.toNat = 101 || c.toNat = 69 then
      match t with
      | d :: u =>
        if d.toNat = 43 || d.toNat = 45 then
          let ds := u.takeWhile isdigit
          if ds.isEmpty then 0
          else if d.toNat = 45 then -(digits_value ds : Int) else (digits_value ds : Int)
        else
          let ds := t.takeWhile isdigit
          if ds.isEmpty then 0 else (digits_value ds : Int)
      | [] => 0
    else 0
  | [] => 0

/-- The digits of the fraction that `strtod` reads at `s`, the input after the integer
digits: those after a `.`, none when `s` does not start with `.`. -/
def fraction_digits (s : List Char) : List Char :=
  match s with
  | c :: t => if c.toNat = 46 then t.takeWhile isdigit else []
  | [] => []

/-- The input left after the fraction that `strtod` reads at `s`. -/
def after_fraction (s : List Char) : List Char :=
  match s with
  | c :: t => if c.toNat = 46 then t.dropWhile isdigit else s
  | [] => s

/-- The library function `atof` in the C locale, on decimal input: optional white
space, optional sign, digits with an optional `.` and more digits, optional exponent;
0 when no number can be read. The hexadecimal, infinity and NaN forms of `strtod` are
not modelled: they have a letter (`x`, `i`, `n`) at their start or right after a leading
`0`, `my_strtod` stops at that letter at the latest, and `read_font_size` then returns
-1 whatever the value (what is left is never a unit). -/
def atof (str : List Char) : ℚ :=
  let s := str.dropWhile isspace
  let neg : Bool := match s with
    | c :: _ => c.toNat = 45
    | [] => false
  let s1 := match s with
    | c :: t => if c.toNat = 43 || c.toNat = 45 then t else s
    | [] => s
  let ip := s1.takeWhile isdigit
  let s2 := s1.dropWhile isdigit
  let fp := fraction_digits s2
  let s3 := after_fraction s2
  if ip.isEmpty && fp.isEmpty then 0
  else
    let m : ℚ := (digits_value ip : ℚ) + (digits_value fp : ℚ) / (10 : ℚ) ^ fp.length
    let v : ℚ := m * (10 : ℚ) ^ parse_exponent s3
    if neg then -v else v

/-! ## The decoders (theme.cc 408-421, 429-470) -/

/-- The static function `read_color` (theme.cc 408-421). The array `col` keeps what the
first `sscanf` stored when the second one runs. -/
def read_color (str_color : List Char) : color_info_t :=
  let col : List Nat := [0x00, 0x00, 0x00, 0xFF]
  let r1 := sscanf 2 (c_str str_color) col
  if 3 ≤ r1.1 then
    color_info_t.rgba ((r1.2.getD 0 0 : ℚ) / 255) ((r1.2.getD 1 0 : ℚ) / 255)
      ((r1.2.getD 2 0 : ℚ) / 255) ((r1.2.getD 3 0 : ℚ) / 255)
  else
    let col := r1.2.set 3 0xF
    let r2 := sscanf 1 (c_str str_color) col
    if 3 ≤ r2.1 then
      color_info_t.rgba ((r2.2.getD 0 0 : ℚ) / 15) ((r2.2.getD 1 0 : ℚ) / 15)
        ((r2.2.getD 2 0 : ℚ) / 15) ((r2.2.getD 3 0 : ℚ) / 15)
    else color_info_t.unset

/-- The static function `my_strtod` (theme.cc 429-439), called with a non-null `last`:
the value of `atof` and the input left after the leading digits and points. -/
def my_strtod (str : List Char) : ℚ × List Char :=
  (atof str, str.dropWhile (fun c => isdigit c || c.toNat = 46))

/-- The static function `read_font_size` (theme.cc 441-470). The pointer test
`first != last` holds exactly when `my_strtod` skipped a character. The two messages
written to `stderr` are not part of the value and are left out. -/
def read_font_size (str_font_size : Option (List Char)) : ℚ :=
  match str_font_size with
  | none => -1
  | some s =>
    let first := c_str s
    let r := my_strtod first
    let size := r.1
    if r.2.length ≠ first.length then
      let last := r.2.dropWhile (fun c => c.toNat = 32)
      if last = ['p', 't'] ∨ last = [] then size
      else if last = ['e', 'm'] then -size
      else if last = ['%'] then -size / 100
      else -1
    else -1

/-! ## The resolver `theme_t::styles_for_scope` (theme.cc 84-144, 364-406) -/

/-- Modelled from the spec: a `plist::any_t` setting value, declared outside the
sources, by the two readings `global_styles` takes of it: `plist::get<std::string>`
and `plist::is_true`. -/
structure any_t where
  get_string : List Char
  is_true : Bool

/-- The color space of a theme: sRGB when the theme names it, generic RGB otherwise
(theme.cc 231-236, 257-258). -/
inductive color_space_t where
  | sRGB
  | genericRGB
  deriving DecidableEq, Repr

/-- Modelled from the spec: a platform color object (`CGColorRef`), by the arguments of
`CGColorCreate`: a color space and the four components (spec: a concrete color). -/
structure CGColor where
  space : color_space_t
  red : ℚ
  green : ℚ
  blue : ℚ
  alpha : ℚ
  deriving DecidableEq

/-- Modelled from the spec: a platform font object (`CTFontRef`), by the arguments it
is created from: the name, the size, and the symbolic traits asked for. -/
structure CTFont where
  name : Option (List Char)
  size : Int
  bold : Bool
  italic : Bool
  deriving DecidableEq

/-- Modelled from the spec: the external collaborators of the resolver, none of which
is among the sources. `does_match sel scope` is `scope::selector_t::does_match`: `none`
when the selector does not match, `some rank` when it does (spec: ScopeMatcher
contract). `value_for_setting name scope` is `bundles::value_for_setting`: the item
selector and value when an item provides the setting. `font_with_traits` is
`CTFontCreateCopyWithSymbolicTraits`, `none` for its null result. -/
structure externals where
  does_match : selector_t → scope_t → Option ℚ
  value_for_setting : String → scope_t → Option (selector_t × any_t)
  font_with_traits : CTFont → Int → Bool → Bool → Option CTFont

/-- Modelled from the spec: `styles_t` is declared in `theme.h`, which is not among
the sources; its constructor takes the seven values of theme.cc 402 (spec:
ResolvedStyle). -/
structure styles_t where
  foreground : CGColor
  background : CGColor
  caret : CGColor
  selection : CGColor
  font : CTFont
  underlined : Bool
  misspelled : Bool
  deriving DecidableEq

/-- The static function `OakColorCreateFromThemeColor` (theme.cc 25-28); `none` is the
null `CGColorPtr`. -/
def OakColorCreateFromThemeColor (color : color_info_t) (colorspace : color_space_t) :
    Option CGColor :=
  if color.is_blank then none
  else some ⟨colorspace, color.red, color.green, color.blue, color.alpha⟩

/-- The table `colorKeys` of `global_styles` (theme.cc 86-93): setting name and the
field it is stored in. -/
def colorKeys : List (String × (decomposed_style_t → color_info_t → decomposed_style_t)) :=
  [ ("foreground", fun s c => { s with foreground := c }),
    ("background", fun s c => { s with background := c }),
    ("caret",      fun s c => { s with caret := c }),
    ("selection",  fun s c => { s with selection := c }),
    ("invisibles", fun s c => { s with invisibles := c }) ]

/-- The table `booleanKeys` of `global_styles` (theme.cc 95-101). -/
def booleanKeys : List (String × (decomposed_style_t → bool_t → decomposed_style_t)) :=
  [ ("misspelled", fun s b => { s with misspelled := b }),
    ("bold",       fun s b => { s with bold := b }),
    ("italic",     fun s b => { s with italic := b }),
    ("underline",  fun s b => { s with underlined := b }) ]

/-- The function `theme_t::global_styles` (theme.cc 84-144): one single-field style per
setting that some item provides for the scope, in the order of the four blocks. -/
def global_styles (ext : externals) (scope : scope_t) : List decomposed_style_t :=
  colorKeys.filterMap (fun k =>
      match ext.value_for_setting k.1 scope with
      | some (sel, value) =>
        some (k.2 (decomposed_style_t.init sel none (-1)) (read_color value.get_string))
      | none => none)
  ++ booleanKeys.filterMap (fun k =>
      match ext.value_for_setting k.1 scope with
      | some (sel, value) =>
        some (k.2 (decomposed_style_t.init sel none (-1))
          (if value.is_true then bool_true else bool_false))
      | none => none)
  ++ (match ext.value_for_setting "fontName" scope with
      | some (sel, value) =>
        [{ decomposed_style_t.init sel none (-1) with font_name := some value.get_string }]
      | none => [])
  ++ (match ext.value_for_setting "fontSize" scope with
      | some (sel, value) =>
        [{ decomposed_style_t.init sel none (-1) with
            font_size := read_font_size (some value.get_string) }]
      | none => [])

/-- The call `ordering.emplace(rank, style)` on a `std::multimap<double, ...>`, kept as
the list of its entries in iteration order: the new entry goes after every entry whose
key is not greater (the upper bound of the equal keys). -/
def multimap_emplace (ordering : List (ℚ × decomposed_style_t)) (rank : ℚ)
    (style : decomposed_style_t) : List (ℚ × decomposed_style_t) :=
  ordering.takeWhile (fun p => decide (p.1 ≤ rank)) ++
    (rank, style) :: ordering.dropWhile (fun p => decide (p.1 ≤ rank))

/-- One of the two loops of theme.cc 372-384: every style of `styles` whose selector
matches the scope is emplaced under its rank. -/
def emplace_matching (ext : externals) (scope : scope_t)
    (ordering : List (ℚ × decomposed_style_t)) (styles : List decomposed_style_t) :
    List (ℚ × decomposed_style_t) :=
  styles.foldl (fun o it =>
    match ext.does_match it.scope_selector scope with
    | some rank => multimap_emplace o rank it
    | none => o) ordering

/-- The shared part of a theme that the resolver reads (`theme_t::shared_styles_t`):
the rule list `_styles` and the color space. -/
structure shared_styles_t where
  _styles : List decomposed_style_t
  _color_space : color_space_t

/-- A theme instance (`theme_t`): the shared styles, the font of the instance and the
cache of resolved styles (a `std::map`, kept as its list of entries). -/
structure theme_t where
  _styles : shared_styles_t
  _font_name : Option (List Char)
  _font_size : ℚ
  _cache : List (scope_t × styles_t)

/-- The C function `round` on a `double`: to the nearest integer, halves away from
zero. -/
def c_round (x : ℚ) : Int := if 0 ≤ x then ⌊x + 1 / 2⌋ else ⌈x - 1 / 2⌉

namespace theme_t

/-- The multimap `ordering` of `styles_for_scope` after its two loops (theme.cc
371-384): first the global styles, then the rules of the theme. -/
def ordering (ext : externals) (t : theme_t) (scope : scope_t) :
    List (ℚ × decomposed_style_t) :=
  emplace_matching ext scope (emplace_matching ext scope [] (global_styles ext scope))
    t._styles._styles

/-- The local `base` of `styles_for_scope` after the fold of theme.cc 386-388. -/
def base (ext : externals) (t : theme_t) (scope : scope_t) : decomposed_style_t :=
  (ordering ext t scope).foldl (fun base it => merge base it.2)
    (decomposed_style_t.init [] t._font_name t._font_size)

/-- The value `res` that `styles_for_scope` builds from `base` (theme.cc 390-402). -/
def make_styles (ext : externals) (t : theme_t) (base : decomposed_style_t) : styles_t :=
  let font : CTFont := ⟨base.font_name, c_round base.font_size, false, false⟩
  let bold : Bool := base.bold = bool_true
  let italic : Bool := base.italic = bool_true
  let font := if bold || italic then
      match ext.font_with_traits font (c_round base.font_size) bold italic with
      | some newFont => newFont
      | none => font
    else font
  let cs := t._styles._color_space
  let foreground := (OakColorCreateFromThemeColor base.foreground cs).getD ⟨cs, 0, 0, 0, 1⟩
  let background := (OakColorCreateFromThemeColor base.background cs).getD ⟨cs, 1, 1, 1, 1⟩
  let caret := (OakColorCreateFromThemeColor base.caret cs).getD ⟨cs, 0, 0, 0, 1⟩
  let selection :=
    (OakColorCreateFromThemeColor base.selection cs).getD ⟨cs, 1 / 2, 1 / 2, 1 / 2, 1⟩
  ⟨foreground, background, caret, selection, font, base.underlined = bool_true,
    base.misspelled = bool_true⟩

/-- The method `theme_t::styles_for_scope` (theme.cc 364-406): the style returned and
the instance afterwards (only the mutable `_cache` can change). The debug assertion
`ASSERT(scope)` is not part of the value. -/
def styles_for_scope (ext : externals) (t : theme_t) (scope : scope_t) :
    styles_t × theme_t :=
  match t._cache.find? (fun e => e.1 = scope) with
  | some e => (e.2, t)
  | none =>
    let res := make_styles ext t (base ext t scope)
    (res, { t with _cache := t._cache ++ [(scope, res)] })

end theme_t

/-- The candidates of spec 4.2 as the spec words them: the global-setting rules in the
order `global_styles` returns them, then the rules of the theme in declaration order,
keeping those whose selector matches the scope, each with its rank. -/
def ranked_candidates (ext : externals) (t : theme_t) (scope : scope_t) :
    List (ℚ × decomposed_style_t) :=
  (global_styles ext scope ++ t._styles._styles).filterMap (fun st =>
    (ext.does_match st.scope_selector scope).map (fun rank => (rank, st)))

/-- The list `o` is `cands` sorted by ascending rank with candidates of equal rank in
their order of insertion: ranks never decrease along `o`, and for every rank the
entries of that rank are the same sequence in `o` as in `cands`. -/
def is_stable_rank_order (cands o : List (ℚ × decomposed_style_t)) : Prop :=
  o.Pairwise (fun a b => a.1 ≤ b.1) ∧
    ∀ r : ℚ, o.filter (fun p => decide (p.1 = r)) = cands.filter (fun p => decide (p.1 = r))

/-- The left fold of the merge operator over a list of rules. -/
def fold_merge (base : decomposed_style_t) (rules : List decomposed_style_t) :
    decomposed_style_t :=
  rules.foldl merge base

/-- A matcher for the examples: a selector matches the scopes it is a prefix of, with
its length as rank. -/
def example_does_match (sel : selector_t) (scope : scope_t) : Option ℚ :=
  if sel.isPrefixOf scope then some (sel.length : ℚ) else none

/-- Externals for the examples: the matcher above, no global setting, no font variant. -/
def example_externals : externals :=
  { does_match := example_does_match
    value_for_setting := fun _ _ => none
    font_with_traits := fun _ _ _ _ => none }

/-- A rule for the examples: selector `sel` and foreground `fg`, nothing else set. -/
def example_rule (sel : selector_t) (fg : color_info_t) : decomposed_style_t :=
  { decomposed_style_t.init sel none (-1) with foreground := fg }

/-- A theme for the examples: the more specific rule `source.c` (red) is declared
before the rule `source` (blue) and the second rule `source.c` (green); the rule `text`
does not match the scope `source.c`. -/
def example_theme : theme_t :=
  { _styles :=
      { _styles :=
          [ example_rule "source.c".toList (color_info_t.rgba 1 0 0 1),
            example_rule "source".toList (color_info_t.rgba 0 0 1 1),
            example_rule "text".toList (color_info_t.rgba 1 1 1 1),
            example_rule "source.c".toList (color_info_t.rgba 0 1 0 1) ]
        _color_space := color_space_t.genericRGB }
    _font_name := some "Menlo".toList
    _font_size := 12
    _cache := [] }

/-- The color texts of the spec: `#` followed by exactly 8, 6, 4 or 3 hexadecimal
digits. -/
def is_color_text (s : List Char) : Bool :=
  match s with
  | c :: ds =>
    c = '#' && ds.all isxdigit &&
      (ds.length = 8 || ds.length = 6 || ds.length = 4 || ds.length = 3)
  | [] => false

/-- A character at which both scans of `read_color` stop without reading it: not a
hexadecimal digit, not white space, not a sign and not the `x` of a `0x` prefix. -/
def stops_hex_scan (c : Char) : Bool :=
  !(isxdigit c || isspace c || c.toNat = 43 || c.toNat = 45 || c.toNat = 120 || c.toNat = 88)

/-! ## The decimal literals of the spec (spec 6) -/

/-- The text of a decimal literal: the digits `ip`, then, when there is a fraction, a
`.` and the digits `fp`. -/
def decimal_text (ip : List Char) (frac : Option (List Char)) : List Char :=
  ip ++ (match frac with
    | some fp => '.' :: fp
    | none => [])

/-- The number a decimal literal denotes. -/
def decimal_number (ip : List Char) (frac : Option (List Char)) : ℚ :=
  (digits_value ip : ℚ) + (match frac with
    | some fp => (digits_value fp : ℚ) / (10 : ℚ) ^ fp.length
    | none => 0)

/-! ## Theme documents (spec 6, raw rule document schema) -/

/-- Modelled from the spec: a property-list value (`plist::any_t`, declared outside the
sources) as the theme documents of the spec need it: booleans, integers, texts, arrays
and dictionaries (spec: nested key/value document; each entry has `scope` and a
`settings` sub-mapping). -/
inductive plist_t where
  | boolean (b : Bool)
  | integer (i : Int)
  | string (s : List Char)
  | array (items : List plist_t)
  | dictionary (entries : List (String × plist_t))

/-- A dictionary of a property list (`plist::dictionary_t`), kept as its entries. -/
abbrev dictionary_t := List (String × plist_t)

namespace plist

/-- Modelled from the spec: the value at a key path, the keys of a dotted path such as
`settings.fontName` taken one dictionary at a time; `none` when a key is missing. -/
def find_key_path : plist_t → List String → Option plist_t
  | p, [] => some p
  | plist_t.dictionary entries, key :: rest =>
    match entries.lookup key with
    | some v => find_key_path v rest
    | none => none
  | _, _ :: _ => none

/-- Modelled from the spec: `plist::get_key_path(plist, path, std::string&)`: the text at
the key path, `none` (the call returns false) when there is no text there. -/
def get_string (dict : dictionary_t) (path : List String) : Option (List Char) :=
  match find_key_path (plist_t.dictionary dict) path with
  | some (plist_t.string s) => some s
  | _ => none

/-- Modelled from the spec: `plist::get_key_path(plist, path, bool&)`. -/
def get_bool (dict : dictionary_t) (path : List String) : Option Bool :=
  match find_key_path (plist_t.dictionary dict) path with
  | some (plist_t.boolean b) => some b
  | _ => none

/-- Modelled from the spec: `plist::get_key_path(plist, path, plist::array_t&)`. -/
def get_array (dict : dictionary_t) (path : List String) : Option (List plist_t) :=
  match find_key_path (plist_t.dictionary dict) path with
  | some (plist_t.array items) => some items
  | _ => none

/-- Modelled from the spec: `plist::get_key_path(plist, path, plist::dictionary_t&)`. -/
def get_dictionary (dict : dictionary_t) (path : List String) : Option dictionary_t :=
  match find_key_path (plist_t.dictionary dict) path with
  | some (plist_t.dictionary entries) => some entries
  | _ => none

end plist

/-! ## `parse_styles` and `setup_styles` (theme.cc 7-82, 172-319) -/

/-- The static overload `get_key_path(plist, setting, color_info_t&)` (theme.cc 7-16):
the return value and the color afterwards. -/
def get_key_path_color (dict : dictionary_t) (setting : List String) (color : color_info_t) :
    Bool × color_info_t :=
  match plist.get_string dict setting with
  | some temp_str => (true, read_color temp_str)
  | none => (false, color)

/-- The static overload `get_key_path(plist, setting, CGFloat&)` (theme.cc 18-23): the
font size afterwards; `temp_str` stays `NULL_STR` when the key is missing. -/
def get_key_path_font_size (dict : dictionary_t) (setting : List String) : ℚ :=
  read_font_size (plist.get_string dict setting)

/-- The test `str.find(pat) != std::string::npos`: `pat` occurs in `str`. -/
def string_find (str pat : List Char) : Bool :=
  match str with
  | [] => pat.isEmpty
  | c :: t => pat.isPrefixOf (c :: t) || string_find t pat

/-- The function `theme_t::shared_styles_t::parse_styles` (theme.cc 46-82). -/
def parse_styles (dict : dictionary_t) : decomposed_style_t :=
  let res := decomposed_style_t.init [] none (-1)
  let res := match plist.get_string dict ["scope"] with
    | some scopeSelector => { res with scope_selector := scopeSelector }
    | none => res
  let res := match plist.get_string dict ["settings", "fontName"] with
    | some fontName => { res with font_name := some fontName }
    | none => res
  let res := { res with font_size := get_key_path_font_size dict ["settings", "fontSize"] }
  let res := { res with
    foreground := (get_key_path_color dict ["settings", "foreground"] res.foreground).2 }
  let res := { res with
    background := (get_key_path_color dict ["settings", "background"] res.background).2 }
  let res := { res with caret := (get_key_path_color dict ["settings", "caret"] res.caret).2 }
  let res := { res with
    selection := (get_key_path_color dict ["settings", "selection"] res.selection).2 }
  let res := { res with
    invisibles := (get_key_path_color dict ["settings", "invisibles"] res.invisibles).2 }
  let res := { res with
    misspelled := match plist.get_bool dict ["settings", "misspelled"] with
      | some flag => if flag then bool_true else bool_false
      | none => bool_unset }
  match plist.get_string dict ["settings", "fontStyle"] with
  | some fontStyle =>
    if string_find fontStyle "plain".toList then
      { res with bold := bool_false, italic := bool_false, underlined := bool_false }
    else
      { res with
        bold := if string_find fontStyle "bold".toList then bool_true else bool_unset
        italic := if string_find fontStyle "italic".toList then bool_true else bool_unset
        underlined :=
          if string_find fontStyle "underline".toList then bool_true else bool_unset }
  | none => res

/-- The number of halvings that bring `n` below 2, at most `fuel` of them: the worker of
`floor_log2`. -/
def floor_log2_fuel : Nat → Nat → Nat
  | 0, _ => 0
  | fuel + 1, n => if n < 2 then 0 else floor_log2_fuel fuel (n / 2) + 1

/-- The position of the highest set bit of `n` (0 for `n = 0`): the whole part of the
binary logarithm, by repeated halving. -/
def floor_log2 (n : Nat) : Nat := floor_log2_fuel n n

/-- The `double` nearest to the rational `x`: IEEE 754 binary64, round to nearest, ties
to even, subnormal numbers included. Of `x = p / q` it finds the exponent `k` with
`2 ^ k ≤ |x| < 2 ^ (k + 1)`, scales by the unit `2 ^ e` of the last of 53 bits and rounds
the quotient `n / d` to a whole number `m`. Overflow to infinity is not modelled (no
value of the theme arithmetic comes near `2 ^ 1024`). -/
def to_double (x : ℚ) : ℚ :=
  if x = 0 then 0
  else
    let p : Nat := x.num.natAbs
    let q : Nat := x.den
    let l : Int := (floor_log2 p : Int) - (floor_log2 q : Int)
    let below : Bool :=
      if 0 ≤ l then decide (p < q * 2 ^ l.toNat) else decide (p * 2 ^ (-l).toNat < q)
    let k : Int := if below then l - 1 else l
    let e : Int := max (k - 52) (-1074)
    let n : Nat := if 0 ≤ e then p else p * 2 ^ (-e).toNat
    let d : Nat := if 0 ≤ e then q * 2 ^ e.toNat else q
    let f : Nat := n / d
    let r : Nat := n % d
    let m : Nat :=
      if 2 * r < d then f else if d < 2 * r then f + 1 else if f % 2 = 0 then f else f + 1
    let v : ℚ := if 0 ≤ e then (m : ℚ) * (2 ^ e.toNat : ℚ) else (m : ℚ) / (2 ^ (-e).toNat : ℚ)
    if x < 0 then -v else v

/-- The value of `0.30*red + 0.59*green + 0.11*blue` as theme.cc 41 computes it in
`double` arithmetic: the three constants and the three components are doubles, and each
product and each sum, taken from left to right, is rounded to the nearest double (no
fused multiply-add). A component of the model, an exact rational, stands for the double
nearest to it, which is what `read_color` stores (`col/255.0`, `col/15.0`). -/
def double_luma (red green blue : ℚ) : ℚ :=
  to_double
    (to_double (to_double (to_double (3 / 10) * to_double red)
        + to_double (to_double (59 / 100) * to_double green))
      + to_double (to_double (11 / 100) * to_double blue))

/-- The static function `color_is_dark` (theme.cc 30-44): the comparison of line 41 on
the sum in `double` arithmetic. A color of the two RGB color spaces of a theme has four
components, so the test on the count holds. -/
def color_is_dark (color : CGColor) : Bool :=
  decide (double_luma color.red color.green color.blue < 1 / 2)

/-- The static function `OakColorCreateCopySoften` (theme.cc 172-200), called with a
non-null color of four components. -/
def OakColorCreateCopySoften (cgColor : CGColor) (factor : ℚ) : CGColor :=
  if color_is_dark cgColor then
    ⟨cgColor.space, 1 - factor * (1 - cgColor.red), 1 - factor * (1 - cgColor.green),
      1 - factor * (1 - cgColor.blue), cgColor.alpha⟩
  else
    ⟨cgColor.space, cgColor.red * factor, cgColor.green * factor, cgColor.blue * factor,
      cgColor.alpha⟩

/-- The twelve members of `gutter_styles_t` (declared in `theme.h`), by name. -/
inductive gutter_field where
  | divider
  | selectionBorder
  | foreground
  | background
  | icons
  | iconsHover
  | iconsPressed
  | selectionForeground
  | selectionBackground
  | selectionIcons
  | selectionIconsHover
  | selectionIconsPressed
  deriving DecidableEq, Repr

/-- Modelled from the spec: `gutter_styles_t` is declared in `theme.h`, which is not
among the sources: twelve named colors (spec: GutterStyleSet), each a `CGColorRef` that
may be null (`none`). The member `m` of `g` is `g m`. -/
abbrev gutter_styles_t := gutter_field → Option CGColor

/-- Modelled from the spec: a newly constructed `gutter_styles_t`, every member null. -/
def gutter_styles_t.init : gutter_styles_t := fun _ => none

/-- The table `gutterKeys` of `setup_styles` (theme.cc 284-298): key and member. -/
def gutterKeys : List (String × gutter_field) :=
  [ ("divider",               gutter_field.divider),
    ("selectionBorder",       gutter_field.selectionBorder),
    ("foreground",            gutter_field.foreground),
    ("background",            gutter_field.background),
    ("icons",                 gutter_field.icons),
    ("iconsHover",            gutter_field.iconsHover),
    ("iconsPressed",          gutter_field.iconsPressed),
    ("selectionForeground",   gutter_field.selectionForeground),
    ("selectionBackground",   gutter_field.selectionBackground),
    ("selectionIcons",        gutter_field.selectionIcons),
    ("selectionIconsHover",   gutter_field.selectionIconsHover),
    ("selectionIconsPressed", gutter_field.selectionIconsPressed) ]

/-- The body of the loop over `gutterKeys` (theme.cc 302-308): when the key holds a
text, the member becomes the color decoded from it, null when that color is blank. -/
def gutter_override_step (gutterSettings : dictionary_t) (colorspace : color_space_t)
    (g : gutter_styles_t) (gutterKey : String × gutter_field) : gutter_styles_t :=
  match get_key_path_color gutterSettings [gutterKey.1] color_info_t.unset with
  | (true, color) =>
    Function.update g gutterKey.2 (OakColorCreateFromThemeColor color colorspace)
  | (false, _) => g

/-- One line of theme.cc 312-318: `g.member = g.member ?: CGColorRetain(g.source)`. -/
def gutter_fallback (g : gutter_styles_t) (member source : gutter_field) : gutter_styles_t :=
  Function.update g member ((g member).or (g source))

/-- The loop of theme.cc 241-253 over the items of the `settings` array: every item that
is a dictionary adds its parsed style and, when that style sets `invisibles`, the style
`deco.invisible` with that color as foreground. -/
def push_styles (_styles : List decomposed_style_t) (items : List plist_t) :
    List decomposed_style_t :=
  items.foldl (fun _styles it =>
    match it with
    | plist_t.dictionary styles =>
      let _styles := _styles ++ [parse_styles styles]
      match _styles.getLast? with
      | some back =>
        if !back.invisibles.is_blank then
          _styles ++ [{ decomposed_style_t.init "deco.invisible".toList none (-1) with
                          foreground := back.invisibles }]
        else _styles
      | none => _styles
    | _ => _styles) _styles

/-- The default gutter styles of theme.cc 275-279: five members are assigned from the
baseline colors, the other seven keep the value `old` they have. -/
def gutter_defaults (old : gutter_styles_t) (_foreground _background : CGColor) :
    gutter_styles_t :=
  let g := Function.update old gutter_field.divider
    (some (OakColorCreateCopySoften _foreground (2 / 5)))
  let g := Function.update g gutter_field.foreground
    (some (OakColorCreateCopySoften _foreground (1 / 2)))
  let g := Function.update g gutter_field.background
    (some (OakColorCreateCopySoften _background (87 / 100)))
  let g := Function.update g gutter_field.selectionForeground
    (some (OakColorCreateCopySoften _foreground (19 / 20)))
  Function.update g gutter_field.selectionBackground
    (some (OakColorCreateCopySoften _background (19 / 20)))

/-- The overrides of theme.cc 281-310: with a theme item that has a `gutterSettings`
dictionary, the loop over `gutterKeys`. -/
def gutter_overrides (item : Option dictionary_t) (colorspace : color_space_t)
    (g : gutter_styles_t) : gutter_styles_t :=
  match item with
  | some dict =>
    match plist.get_dictionary dict ["gutterSettings"] with
    | some gutterSettings =>
      gutterKeys.foldl (gutter_override_step gutterSettings colorspace) g
    | none => g
  | none => g

/-- The seven fallbacks of theme.cc 312-318, in their order. -/
def gutter_fallbacks (g : gutter_styles_t) : gutter_styles_t :=
  let g := gutter_fallback g gutter_field.selectionBorder gutter_field.divider
  let g := gutter_fallback g gutter_field.icons gutter_field.foreground
  let g := gutter_fallback g gutter_field.iconsHover gutter_field.icons
  let g := gutter_fallback g gutter_field.iconsPressed gutter_field.icons
  let g := gutter_fallback g gutter_field.selectionIcons gutter_field.selectionForeground
  let g := gutter_fallback g gutter_field.selectionIconsHover gutter_field.selectionIcons
  gutter_fallback g gutter_field.selectionIconsPressed gutter_field.selectionIcons

/-- The members of `theme_t::shared_styles_t` that `setup_styles` assigns: the part the
resolver reads, the baseline colors and flags, and the gutter styles. -/
structure shared_styles_state extends shared_styles_t where
  _foreground : CGColor
  _background : CGColor
  _is_dark : Bool
  _is_transparent : Bool
  _gutter_styles : gutter_styles_t

/-- The color space `setup_styles` creates (theme.cc 219-236, 257-258): sRGB when the
theme item names it, generic RGB otherwise and without a theme item. -/
def item_color_space (item : Option dictionary_t) : color_space_t :=
  match item with
  | some dict =>
    if plist.get_string dict ["colorSpaceName"] = some "sRGB".toList then color_space_t.sRGB
    else color_space_t.genericRGB
  | none => color_space_t.genericRGB

/-- The rule list `setup_styles` builds (theme.cc 217, 238-254): empty without a theme
item or without a `settings` array. -/
def item_styles (item : Option dictionary_t) : List decomposed_style_t :=
  match item with
  | some dict =>
    match plist.get_array dict ["settings"] with
    | some items => push_styles [] items
    | none => []
  | none => []

/-- The left operand of `?:` in theme.cc 266-267: null for an empty rule list, else the
color made from the chosen field of `_styles[0]`. -/
def root_color (_styles : List decomposed_style_t)
    (field : decomposed_style_t → color_info_t) (colorspace : color_space_t) : Option CGColor :=
  match _styles with
  | [] => none
  | first :: _ => OakColorCreateFromThemeColor (field first) colorspace

/-- The method `theme_t::shared_styles_t::setup_styles` (theme.cc 215-319). `item` is the
property list of `_item`, as `bundles::lookup` refreshes it (`none` when there is no theme
item), and `old` the gutter styles the object holds when the method starts: the seven
members of theme.cc 312-318 are read before they are assigned. -/
def setup_styles (item : Option dictionary_t) (old : gutter_styles_t) : shared_styles_state :=
  let _color_space := item_color_space item
  let _styles := item_styles item
  let _foreground : CGColor :=
    (root_color _styles (fun s => s.foreground) _color_space).getD ⟨_color_space, 1, 1, 1, 1⟩
  let _background : CGColor :=
    (root_color _styles (fun s => s.background) _color_space).getD ⟨_color_space, 0, 0, 0, 1⟩
  { _styles := _styles
    _color_space := _color_space
    _foreground := _foreground
    _background := _background
    _is_dark := color_is_dark _background
    _is_transparent := decide (_background.alpha < 1)
    _gutter_styles :=
      gutter_fallbacks
        (gutter_overrides item _color_space (gutter_defaults old _foreground _background)) }

/-- The constructor `shared_styles_t(themeItem)` (theme.cc 202-206): `setup_styles` on a
new object, whose gutter styles are all null. -/
def shared_styles_state.create (item : Option dictionary_t) : shared_styles_state :=
  setup_styles item gutter_styles_t.init

/-! ## Words of the spec about gutters, color ranges and the empty style -/

/-- The text a theme document gives for a gutter key, if any: the override of the
spec. -/
def gutter_override (item : Option dictionary_t) (key : String) : Option (List Char) :=
  match item with
  | some dict =>
    match plist.get_dictionary dict ["gutterSettings"] with
    | some gutterSettings => plist.get_string gutterSettings [key]
    | none => none
  | none => none

/-- The key of `gutterKeys` that names a member of the gutter styles. -/
def gutter_field.key : gutter_field → String
  | gutter_field.divider => "divider"
  | gutter_field.selectionBorder => "selectionBorder"
  | gutter_field.foreground => "foreground"
  | gutter_field.background => "background"
  | gutter_field.icons => "icons"
  | gutter_field.iconsHover => "iconsHover"
  | gutter_field.iconsPressed => "iconsPressed"
  | gutter_field.selectionForeground => "selectionForeground"
  | gutter_field.selectionBackground => "selectionBackground"
  | gutter_field.selectionIcons => "selectionIcons"
  | gutter_field.selectionIconsHover => "selectionIconsHover"
  | gutter_field.selectionIconsPressed => "selectionIconsPressed"

/-- The rules a raw rule dictionary contributes, as the spec words it: its decoded
rule, followed, when that rule sets `invisibles`, by the rule `deco.invisible` whose
foreground is that color and whose other fields are unset. -/
def rules_of_entry (entry : dictionary_t) : List decomposed_style_t :=
  if (parse_styles entry).invisibles.is_blank then [parse_styles entry]
  else [parse_styles entry,
    { decomposed_style_t.init "deco.invisible".toList none (-1) with
        foreground := (parse_styles entry).invisibles }]

/-- The soften transform as the spec words it, by the darkness of the theme: each of
red, green and blue becomes `1 - f * (1 - channel)` in a dark theme and `f * channel` in
a light one; alpha is kept. -/
def soften_by_theme (theme_is_dark : Bool) (c : CGColor) (f : ℚ) : CGColor :=
  if theme_is_dark then
    ⟨c.space, 1 - f * (1 - c.red), 1 - f * (1 - c.green), 1 - f * (1 - c.blue), c.alpha⟩
  else ⟨c.space, f * c.red, f * c.green, f * c.blue, c.alpha⟩

/-- The color range of the spec: a color is blank or has its four channels in [0,1]. -/
def color_in_range (c : color_info_t) : Prop :=
  c.is_blank = true ∨
    (0 ≤ c.red ∧ c.red ≤ 1 ∧ 0 ≤ c.green ∧ c.green ≤ 1 ∧ 0 ≤ c.blue ∧ c.blue ≤ 1 ∧
      0 ≤ c.alpha ∧ c.alpha ≤ 1)

/-- Every color field of a style is in the color range. -/
def style_in_range (s : decomposed_style_t) : Prop :=
  color_in_range s.foreground ∧ color_in_range s.background ∧ color_in_range s.caret ∧
    color_in_range s.selection ∧ color_in_range s.invisibles

/-- Two colors are the same color of the spec: both blank, or equal values. -/
def same_color (a b : color_info_t) : Prop :=
  (a.is_blank = true ∧ b.is_blank = true) ∨ a = b

/-- A raw rule dictionary for the examples: the selector `source`, a red foreground, a
half-transparent white background and blue invisibles. -/
def example_entry : dictionary_t :=
  [ ("scope", plist_t.string "source".toList),
    ("settings", plist_t.dictionary
      [ ("foreground", plist_t.string "#F00".toList),
        ("background", plist_t.string "#FFFFFF80".toList),
        ("invisibles", plist_t.string "#00F".toList) ]) ]

/-- A theme document for the examples: its one rule is the entry above. -/
def example_document : dictionary_t :=
  [ ("settings", plist_t.array [ plist_t.dictionary example_entry ]) ]

/-- A theme document for the examples with no rules and the one gutter override
`icons = #F00`. -/
def example_gutter_document : dictionary_t :=
  [ ("gutterSettings", plist_t.dictionary [ ("icons", plist_t.string "#F00".toList) ]) ]

/-- A theme document for the examples with no rules and the one gutter entry
`divider = garbage`, which is not a color. -/
def example_malformed_document : dictionary_t :=
  [ ("gutterSettings", plist_t.dictionary [ ("divider", plist_t.string "garbage".toList) ]) ]

/-- The document above with the key `divider` removed. -/
def example_removed_document : dictionary_t :=
  [ ("gutterSettings", plist_t.dictionary []) ]

/-- A raw rule dictionary for the examples: no selector, a black foreground and the
background `#00B3C7`, for which `0.30 r + 0.59 g + 0.11 b` is exactly one half. -/
def example_cyan_entry : dictionary_t :=
  [ ("settings", plist_t.dictionary
      [ ("foreground", plist_t.string "#000".toList),
        ("background", plist_t.string "#00B3C7".toList) ]) ]

/-- A theme document for the examples: its one rule is the entry above; it has no gutter
settings. -/
def example_cyan_document : dictionary_t :=
  [ ("settings", plist_t.array [ plist_t.dictionary example_cyan_entry ]) ]

/-- A theme document for the examples with no rules and no gutter settings. -/
def example_blank_document : dictionary_t := []

/-- C3: `L += R` takes each of the font name, foreground, caret, selection and
invisibles from `R` when `R` has it set and keeps the value of `L` otherwise; each of
bold, italic, underlined and misspelled is taken from `R` unless `R` leaves it unset, so
an explicit false of `R` replaces a true of `L`. -/
theorem merge_overrides_set_fields (L R : decomposed_style_t) :
    (merge L R).font_name = (if R.font_name = none then L.font_name else R.font_name) ∧
    (merge L R).foreground = (if R.foreground.is_blank then L.foreground else R.foreground) ∧
    (merge L R).caret = (if R.caret.is_blank then L.caret else R.caret) ∧
    (merge L R).selection = (if R.selection.is_blank then L.selection else R.selection) ∧
    (merge L R).invisibles = (if R.invisibles.is_blank then L.invisibles else R.invisibles) ∧
    (merge L R).bold = (if R.bold = bool_unset then L.bold else R.bold) ∧
    (merge L R).italic = (if R.italic = bool_unset then L.italic else R.italic) ∧
    (merge L R).underlined = (if R.underlined = bool_unset then L.underlined else R.underlined) ∧
    (merge L R).misspelled = (if R.misspelled = bool_unset then L.misspelled else R.misspelled) ∧
    (merge { L with bold := bool_true } { R with bold := bool_false }).bold = bool_false ∧
    (merge { L with italic := bool_true } { R with italic := bool_false }).italic = bool_false ∧
    (merge { L with underlined := bool_true }
      { R with underlined := bool_false }).underlined = bool_false ∧
    (merge { L with misspelled := bool_true }
      { R with misspelled := bool_false }).misspelled = bool_false := by
  refine ⟨?_, rfl, rfl, rfl, rfl, rfl, rfl, rfl, rfl, rfl, rfl, rfl, rfl⟩
  by_cases h : R.font_name = none <;> simp [merge, h]

/-- C4 as stated fails: with the background of `L` blank and `R.background` the
half-transparent white, `L += R` has the background of `R` itself, alpha `1/2`
included, not the per-channel mix with the alpha of `L.background`. -/
theorem blank_base_background_not_mixed :
    ¬ (let L := decomposed_style_t.init [] none (-1)
       let R := { decomposed_style_t.init [] none (-1) with
                    background := color_info_t.rgba 1 1 1 (1 / 2) }
       (merge L R).background =
         color_info_t.rgba
           (L.background.red * (1 - R.background.alpha) + R.background.red * R.background.alpha)
           (L.background.green * (1 - R.background.alpha)
             + R.background.green * R.background.alpha)
           (L.background.blue * (1 - R.background.alpha)
             + R.background.blue * R.background.alpha)
           L.background.alpha) := by
  simp [merge, blend, decomposed_style_t.init, color_info_t.rgba, color_info_t.unset,
    color_info_t.is_blank]

/-- C4, amended: the background of `L += R` is `L.background` when `R.background` is
unset, `R.background` itself when `R.background` is set and `L.background` is unset, and
otherwise the color whose red, green and blue are
`L.c * (1 - R.alpha) + R.c * R.alpha` and whose alpha is that of `L.background`; so
`(0,0,0,1)` merged with `(1,1,1,1/2)` is `(1/2,1/2,1/2,1)`. -/
theorem merge_background_blend (L R : decomposed_style_t) :
    (merge L R).background =
      (if R.background.is_blank then L.background
       else if L.background.is_blank then R.background
       else color_info_t.rgba
         (L.background.red * (1 - R.background.alpha) + R.background.red * R.background.alpha)
         (L.background.green * (1 - R.background.alpha)
           + R.background.green * R.background.alpha)
         (L.background.blue * (1 - R.background.alpha)
           + R.background.blue * R.background.alpha)
         L.background.alpha) ∧
    (merge { L with background := color_info_t.rgba 0 0 0 1 }
      { R with background := color_info_t.rgba 1 1 1 (1 / 2) }).background =
        color_info_t.rgba (1 / 2) (1 / 2) (1 / 2) 1 := by
  constructor
  · by_cases hR : R.background.is_blank = true
    · simp [merge, hR]
    · by_cases hL : L.background.is_blank = true
      · simp [merge, blend, hR, hL]
      · simp only [merge, blend, hR, hL, if_false, Bool.false_eq_true]
        simp only [color_info_t.rgba, color_info_t.mk.injEq, true_and, and_true]
        exact ⟨by ring, by ring, by ring⟩
  · simp [merge, blend, color_info_t.rgba, color_info_t.is_blank]

/-- C5: the font size of `L += R` is `R.font_size` when that is positive, `L.font_size`
unchanged when `R.font_size` is the sentinel `-1`, and `L.font_size * |R.font_size|` for
every other `R.font_size`. -/
theorem merge_font_size (L R : decomposed_style_t) :
    (merge L R).font_size =
      (if 0 < R.font_size then R.font_size
       else if R.font_size = -1 then L.font_size
       else L.font_size * |R.font_size|) := by
  by_cases h : 0 < R.font_size
  · simp [merge, h]
  · by_cases h1 : R.font_size = -1
    · simp [merge, h1]
    · simp [merge, h, h1]

/-- C6: the merge is not commutative. Whatever the base style, when `A` has the
foreground red and `B` the foreground blue, `(base += A) += B` has the foreground blue
and `(base += B) += A` has the foreground red, two different colors. -/
theorem merge_not_commutative (base A B : decomposed_style_t)
    (hA : A.foreground = color_info_t.rgba 1 0 0 1)
    (hB : B.foreground = color_info_t.rgba 0 0 1 1) :
    (merge (merge base A) B).foreground = color_info_t.rgba 0 0 1 1 ∧
    (merge (merge base B) A).foreground = color_info_t.rgba 1 0 0 1 ∧
    (merge (merge base A) B).foreground ≠ (merge (merge base B) A).foreground := by
  simp [merge, hA, hB, color_info_t.rgba, color_info_t.is_blank]

/-- C6 at the two single-field rules over the empty base style. -/
theorem merge_not_commutative_witness :
    (merge (merge (decomposed_style_t.init [] none (-1))
        { decomposed_style_t.init [] none (-1) with foreground := color_info_t.rgba 1 0 0 1 })
        { decomposed_style_t.init [] none (-1) with
            foreground := color_info_t.rgba 0 0 1 1 }).foreground
      = color_info_t.rgba 0 0 1 1 ∧
    (merge (merge (decomposed_style_t.init [] none (-1))
        { decomposed_style_t.init [] none (-1) with foreground := color_info_t.rgba 0 0 1 1 })
        { decomposed_style_t.init [] none (-1) with
            foreground := color_info_t.rgba 1 0 0 1 }).foreground
      = color_info_t.rgba 1 0 0 1 ∧
    (merge (merge (decomposed_style_t.init [] none (-1))
        { decomposed_style_t.init [] none (-1) with foreground := color_info_t.rgba 1 0 0 1 })
        { decomposed_style_t.init [] none (-1) with
            foreground := color_info_t.rgba 0 0 1 1 }).foreground
      ≠ (merge (merge (decomposed_style_t.init [] none (-1))
        { decomposed_style_t.init [] none (-1) with foreground := color_info_t.rgba 0 0 1 1 })
        { decomposed_style_t.init [] none (-1) with
            foreground := color_info_t.rgba 1 0 0 1 }).foreground :=
  merge_not_commutative _ _ _ rfl rfl

/-! ## The multimap keeps a stable rank order -/

theorem multimap_emplace_cons (a : ℚ × decomposed_style_t) (l : List (ℚ × decomposed_style_t))
    (r : ℚ) (st : decomposed_style_t) :
    multimap_emplace (a :: l) r st =
      if a.1 ≤ r then a :: multimap_emplace l r st else (r, st) :: a :: l := by
  by_cases h : a.1 ≤ r <;> simp [multimap_emplace, List.takeWhile_cons, List.dropWhile_cons, h]

theorem mem_multimap_emplace (l : List (ℚ × decomposed_style_t)) (r : ℚ)
    (st : decomposed_style_t) (x : ℚ × decomposed_style_t) :
    x ∈ multimap_emplace l r st ↔ x = (r, st) ∨ x ∈ l := by
  induction l with
  | nil => simp [multimap_emplace]
  | cons a l ih =>
    rw [multimap_emplace_cons]
    by_cases h : a.1 ≤ r
    · simp only [h, if_true, List.mem_cons, ih]
      tauto
    · simp only [h, if_false, List.mem_cons]

theorem multimap_emplace_sorted (l : List (ℚ × decomposed_style_t)) (r : ℚ)
    (st : decomposed_style_t) (hl : l.Pairwise (fun a b => a.1 ≤ b.1)) :
    (multimap_emplace l r st).Pairwise (fun a b => a.1 ≤ b.1) := by
  induction l with
  | nil => simp [multimap_emplace]
  | cons a l ih =>
    rw [multimap_emplace_cons]
    rw [List.pairwise_cons] at hl
    by_cases h : a.1 ≤ r
    · simp only [h, if_true, List.pairwise_cons]
      refine ⟨?_, ih hl.2⟩
      intro x hx
      rcases (mem_multimap_emplace l r st x).1 hx with hx | hx
      · subst hx; exact h
      · exact hl.1 x hx
    · simp only [h, if_false, List.pairwise_cons]
      have hlt : r ≤ a.1 := le_of_lt (lt_of_not_le h)
      refine ⟨?_, hl.1, hl.2⟩
      intro x hx
      rcases List.mem_cons.1 hx with hx | hx
      · subst hx; exact hlt
      · exact le_trans hlt (hl.1 x hx)

theorem multimap_emplace_filter (l : List (ℚ × decomposed_style_t)) (r : ℚ)
    (st : decomposed_style_t) (hl : l.Pairwise (fun a b => a.1 ≤ b.1)) (k : ℚ) :
    (multimap_emplace l r st).filter (fun p => decide (p.1 = k)) =
      l.filter (fun p => decide (p.1 = k)) ++ (if r = k then [(r, st)] else []) := by
  induction l with
  | nil => by_cases hk : r = k <;> simp [multimap_emplace, hk]
  | cons a l ih =>
    rw [multimap_emplace_cons]
    rw [List.pairwise_cons] at hl
    by_cases h : a.1 ≤ r
    · simp only [h, if_true, List.filter_cons, ih hl.2]
      by_cases hak : a.1 = k <;> simp [hak]
    · simp only [h, if_false]
      have hlt : r < a.1 := lt_of_not_le h
      by_cases hk : r = k
      · subst hk
        have hnone : (a :: l).filter (fun p => decide (p.1 = r)) = [] := by
          rw [List.filter_eq_nil_iff]
          intro x hx
          have hxa : a.1 ≤ x.1 := by
            rcases List.mem_cons.1 hx with hx | hx
            · subst hx; exact le_refl _
            · exact hl.1 x hx
          have : x.1 ≠ r := ne_of_gt (lt_of_lt_of_le hlt hxa)
          simpa using this
        rw [List.filter_cons_of_pos (by simp), hnone]
        simp
      · simp [List.filter_cons, hk]

/-- The matching candidates of a list of styles, each with its rank, in list order. -/
theorem emplace_matching_stable (ext : externals) (scope : scope_t)
    (styles : List decomposed_style_t) :
    ∀ o : List (ℚ × decomposed_style_t), o.Pairwise (fun a b => a.1 ≤ b.1) →
      (emplace_matching ext scope o styles).Pairwise (fun a b => a.1 ≤ b.1) ∧
      ∀ k : ℚ, (emplace_matching ext scope o styles).filter (fun p => decide (p.1 = k)) =
        o.filter (fun p => decide (p.1 = k)) ++
          (styles.filterMap (fun st =>
            (ext.does_match st.scope_selector scope).map (fun rank => (rank, st)))).filter
              (fun p => decide (p.1 = k)) := by
  induction styles with
  | nil => intro o ho; simp [emplace_matching, ho]
  | cons st styles ih =>
    intro o ho
    cases hm : ext.does_match st.scope_selector scope with
    | none =>
      have hstep : emplace_matching ext scope o (st :: styles)
          = emplace_matching ext scope o styles := by
        simp [emplace_matching, hm]
      rw [hstep]
      have := ih o ho
      simpa [List.filterMap_cons, hm] using this
    | some rank =>
      have hstep : emplace_matching ext scope o (st :: styles)
          = emplace_matching ext scope (multimap_emplace o rank st) styles := by
        simp [emplace_matching, hm]
      rw [hstep]
      have h1 := ih (multimap_emplace o rank st) (multimap_emplace_sorted o rank st ho)
      refine ⟨h1.1, ?_⟩
      intro k
      rw [h1.2 k, multimap_emplace_filter o rank st ho k]
      by_cases hk : rank = k <;> simp [List.filterMap_cons, hm, List.filter_cons, hk]

theorem ordering_is_stable_rank_order (ext : externals) (t : theme_t) (scope : scope_t) :
    is_stable_rank_order (ranked_candidates ext t scope) (theme_t.ordering ext t scope) := by
  have h1 := emplace_matching_stable ext scope (global_styles ext scope) [] List.Pairwise.nil
  have h2 := emplace_matching_stable ext scope t._styles._styles _ h1.1
  refine ⟨h2.1, ?_⟩
  intro k
  unfold theme_t.ordering ranked_candidates
  rw [h2.2 k, h1.2 k, List.filterMap_append, List.filter_append]
  simp

theorem filter_rank_cons_self (a : ℚ × decomposed_style_t) (l : List (ℚ × decomposed_style_t)) :
    (a :: l).filter (fun p => decide (p.1 = a.1)) = a :: l.filter (fun p => decide (p.1 = a.1)) :=
  List.filter_cons_of_pos (by simp)

theorem stable_rank_order_unique_aux :
    ∀ o₁ o₂ : List (ℚ × decomposed_style_t),
      o₁.Pairwise (fun a b => a.1 ≤ b.1) → o₂.Pairwise (fun a b => a.1 ≤ b.1) →
      (∀ r : ℚ, o₁.filter (fun p => decide (p.1 = r)) = o₂.filter (fun p => decide (p.1 = r))) →
      o₁ = o₂ := by
  intro o₁
  induction o₁ with
  | nil =>
    intro o₂ _ _ h
    cases o₂ with
    | nil => rfl
    | cons b t₂ =>
      have := h b.1
      rw [filter_rank_cons_self] at this
      simp at this
  | cons a t₁ ih =>
    intro o₂ h₁ h₂ h
    cases o₂ with
    | nil =>
      have := h a.1
      rw [filter_rank_cons_self] at this
      simp at this
    | cons b t₂ =>
      rw [List.pairwise_cons] at h₁ h₂
      have hab : b.1 ≤ a.1 := by
        have hmem : a ∈ (b :: t₂).filter (fun p => decide (p.1 = a.1)) := by
          rw [← h a.1, filter_rank_cons_self]; exact List.mem_cons_self _ _
        rcases List.mem_cons.1 (List.mem_filter.1 hmem).1 with hx | hx
        · rw [hx]
        · exact h₂.1 a hx
      have hba : a.1 ≤ b.1 := by
        have hmem : b ∈ (a :: t₁).filter (fun p => decide (p.1 = b.1)) := by
          rw [h b.1, filter_rank_cons_self]; exact List.mem_cons_self _ _
        rcases List.mem_cons.1 (List.mem_filter.1 hmem).1 with hx | hx
        · rw [hx]
        · exact h₁.1 b hx
      have hkey : a.1 = b.1 := le_antisymm hba hab
      have hhead := h a.1
      rw [filter_rank_cons_self, hkey, filter_rank_cons_self] at hhead
      have heq : a = b := (List.cons.inj hhead).1
      subst heq
      have htail : t₁ = t₂ := by
        apply ih t₂ h₁.2 h₂.2
        intro r
        have hr := h r
        by_cases hra : a.1 = r
        · subst hra
          rw [filter_rank_cons_self, filter_rank_cons_self] at hr
          exact (List.cons.inj hr).2
        · rw [List.filter_cons_of_neg (by simpa using hra),
            List.filter_cons_of_neg (by simpa using hra)] at hr
          exact hr
      rw [htail]

theorem base_eq_fold_merge (ext : externals) (t : theme_t) (scope : scope_t) :
    theme_t.base ext t scope =
      fold_merge (decomposed_style_t.init [] t._font_name t._font_size)
        ((theme_t.ordering ext t scope).map Prod.snd) := by
  simp [theme_t.base, fold_merge, List.foldl_map]

/-- C1: for a scope that is not cached, there is exactly one arrangement `o` of the
matching candidates (global-setting rules first, then the rules of the theme, non-matching
ones left out) in ascending rank with equal ranks in insertion order, and the merged
style of `styles_for_scope` is the left fold of the merge operator over `o` from the base
style (empty selector, font name and size of the instance, colors blank, tri-states
unset); the style returned is built from that fold. -/
theorem styles_for_scope_folds_stable_rank_order (ext : externals) (t : theme_t)
    (scope : scope_t) (hmiss : t._cache.find? (fun e => e.1 = scope) = none) :
    ∃ o : List (ℚ × decomposed_style_t),
      is_stable_rank_order (ranked_candidates ext t scope) o ∧
      (∀ o', is_stable_rank_order (ranked_candidates ext t scope) o' → o' = o) ∧
      theme_t.base ext t scope =
        fold_merge (decomposed_style_t.init [] t._font_name t._font_size) (o.map Prod.snd) ∧
      (theme_t.styles_for_scope ext t scope).1 =
        theme_t.make_styles ext t
          (fold_merge (decomposed_style_t.init [] t._font_name t._font_size)
            (o.map Prod.snd)) := by
  have ho := ordering_is_stable_rank_order ext t scope
  refine ⟨theme_t.ordering ext t scope, ho, ?_, base_eq_fold_merge ext t scope, ?_⟩
  · intro o' ho'
    exact stable_rank_order_unique_aux o' _ ho'.1 ho.1 (fun r => by rw [ho'.2 r, ho.2 r])
  · rw [← base_eq_fold_merge]
    simp [theme_t.styles_for_scope, hmiss]

theorem example_ordering :
    theme_t.ordering example_externals example_theme "source.c".toList =
      [ (6, example_rule "source".toList (color_info_t.rgba 0 0 1 1)),
        (8, example_rule "source.c".toList (color_info_t.rgba 1 0 0 1)),
        (8, example_rule "source.c".toList (color_info_t.rgba 0 1 0 1)) ] := by
  simp [theme_t.ordering, emplace_matching, global_styles, example_externals, colorKeys,
    booleanKeys, example_theme, example_does_match, example_rule, decomposed_style_t.init,
    multimap_emplace, List.takeWhile, List.dropWhile]
  norm_num

theorem example_base_foreground :
    (theme_t.base example_externals example_theme "source.c".toList).foreground =
      color_info_t.rgba 0 1 0 1 := by
  rw [theme_t.base, example_ordering]
  simp [merge, example_rule, decomposed_style_t.init, color_info_t.rgba, color_info_t.is_blank]

/-- C1 at the example theme and the scope `source.c`, whose cache is empty: of the two
rules of rank 8 the one declared later, the green one, gives the merged foreground. -/
theorem styles_for_scope_folds_stable_rank_order_witness :
    example_theme._cache.find? (fun e => e.1 = "source.c".toList) = none ∧
    (∃ o : List (ℚ × decomposed_style_t),
      is_stable_rank_order
        (ranked_candidates example_externals example_theme "source.c".toList) o ∧
      (∀ o', is_stable_rank_order
        (ranked_candidates example_externals example_theme "source.c".toList) o' → o' = o) ∧
      theme_t.base example_externals example_theme "source.c".toList =
        fold_merge
          (decomposed_style_t.init [] example_theme._font_name example_theme._font_size)
          (o.map Prod.snd) ∧
      (theme_t.styles_for_scope example_externals example_theme "source.c".toList).1 =
        theme_t.make_styles example_externals example_theme
          (fold_merge
            (decomposed_style_t.init [] example_theme._font_name example_theme._font_size)
            (o.map Prod.snd))) ∧
    (theme_t.base example_externals example_theme "source.c".toList).foreground =
      color_info_t.rgba 0 1 0 1 :=
  ⟨rfl, styles_for_scope_folds_stable_rank_order example_externals example_theme
    "source.c".toList rfl, example_base_foreground⟩

theorem isxdigit_range {c : Char} (h : isxdigit c = true) :
    (48 ≤ c.toNat ∧ c.toNat ≤ 57) ∨ (65 ≤ c.toNat ∧ c.toNat ≤ 70) ∨
      (97 ≤ c.toNat ∧ c.toNat ≤ 102) := by
  simp only [isxdigit, Bool.or_eq_true, Bool.and_eq_true, decide_eq_true_eq] at h
  tauto

theorem hexval_lt (c : Char) : hexval c < 16 := by
  unfold hexval
  split_ifs <;> omega

theorem isspace_of_isxdigit {c : Char} (h : isxdigit c = true) : isspace c = false := by
  have := isxdigit_range h
  simp only [isspace, Bool.or_eq_false_iff, Bool.and_eq_false_iff, decide_eq_false_iff_not]
  omega

theorem scan_hex_two (c₁ c₂ : Char) (rest : List Char) (h₁ : isxdigit c₁ = true)
    (h₂ : isxdigit c₂ = true) :
    scan_hex 2 (c₁ :: c₂ :: rest) = some (16 * hexval c₁ + hexval c₂, rest) := by
  have hs := isspace_of_isxdigit h₁
  have hr := isxdigit_range h₁
  have h43 : ¬ c₁.toNat = 43 := by omega
  have h45 : ¬ c₁.toNat = 45 := by omega
  have hb₁ := hexval_lt c₁
  have hb₂ := hexval_lt c₂
  have hmod : (16 * hexval c₁ + hexval c₂) % 4294967296 = 16 * hexval c₁ + hexval c₂ :=
    Nat.mod_eq_of_lt (by omega)
  simp [scan_hex, List.dropWhile_cons, hs, h43, h45, List.takeWhile_cons, h₁, h₂, hex_value,
    hmod]

theorem scan_hex_two_single (c₁ : Char) (h₁ : isxdigit c₁ = true) :
    scan_hex 2 [c₁] = some (hexval c₁, []) := by
  have hs := isspace_of_isxdigit h₁
  have hr := isxdigit_range h₁
  have h43 : ¬ c₁.toNat = 43 := by omega
  have h45 : ¬ c₁.toNat = 45 := by omega
  have hb₁ := hexval_lt c₁
  have hmod : hexval c₁ % 4294967296 = hexval c₁ := Nat.mod_eq_of_lt (by omega)
  simp [scan_hex, List.dropWhile_cons, hs, h43, h45, List.takeWhile_cons, h₁, hex_value, hmod]

theorem scan_hex_one (c₁ : Char) (rest : List Char) (h₁ : isxdigit c₁ = true) :
    scan_hex 1 (c₁ :: rest) = some (hexval c₁, rest) := by
  have hs := isspace_of_isxdigit h₁
  have hr := isxdigit_range h₁
  have h43 : ¬ c₁.toNat = 43 := by omega
  have h45 : ¬ c₁.toNat = 45 := by omega
  have hb₁ := hexval_lt c₁
  have hmod : hexval c₁ % 4294967296 = hexval c₁ := Nat.mod_eq_of_lt (by omega)
  simp [scan_hex, List.dropWhile_cons, hs, h43, h45, List.takeWhile_cons, h₁, hex_value, hmod]

theorem scan_hex_nil (w : Nat) : scan_hex w [] = none := by
  simp [scan_hex]

theorem c_str_of_no_nul (s : List Char) (h : ∀ c ∈ s, c.toNat ≠ 0) : c_str s = s := by
  unfold c_str
  rw [List.takeWhile_eq_self_iff]
  intro c hc
  simpa using h c hc

theorem toNat_ne_zero_of_isxdigit {c : Char} (h : isxdigit c = true) : c.toNat ≠ 0 := by
  have := isxdigit_range h
  omega

theorem c_str_hash_hex (ds : List Char) (h : ∀ c ∈ ds, isxdigit c = true) :
    c_str ('#' :: ds) = '#' :: ds := by
  apply c_str_of_no_nul
  intro c hc
  rcases List.mem_cons.1 hc with hc | hc
  · subst hc; decide
  · exact toNat_ne_zero_of_isxdigit (h c hc)

theorem read_color_eight (c₁ c₂ c₃ c₄ c₅ c₆ c₇ c₈ : Char)
    (h₁ : isxdigit c₁ = true) (h₂ : isxdigit c₂ = true) (h₃ : isxdigit c₃ = true)
    (h₄ : isxdigit c₄ = true) (h₅ : isxdigit c₅ = true) (h₆ : isxdigit c₆ = true)
    (h₇ : isxdigit c₇ = true) (h₈ : isxdigit c₈ = true) :
    read_color ['#', c₁, c₂, c₃, c₄, c₅, c₆, c₇, c₈] =
      color_info_t.rgba (((16 * hexval c₁ + hexval c₂ : ℕ) : ℚ) / 255)
        (((16 * hexval c₃ + hexval c₄ : ℕ) : ℚ) / 255)
        (((16 * hexval c₅ + hexval c₆ : ℕ) : ℚ) / 255)
        (((16 * hexval c₇ + hexval c₈ : ℕ) : ℚ) / 255) := by
  have hc : c_str ['#', c₁, c₂, c₃, c₄, c₅, c₆, c₇, c₈] = ['#', c₁, c₂, c₃, c₄, c₅, c₆, c₇, c₈] :=
    c_str_hash_hex _ (by simp [h₁, h₂, h₃, h₄, h₅, h₆, h₇, h₈])
  simp [read_color, hc, sscanf, scan_hex_seq, scan_hex_two, h₁, h₂, h₃, h₄, h₅, h₆, h₇, h₈]

theorem read_color_six (c₁ c₂ c₃ c₄ c₅ c₆ : Char)
    (h₁ : isxdigit c₁ = true) (h₂ : isxdigit c₂ = true) (h₃ : isxdigit c₃ = true)
    (h₄ : isxdigit c₄ = true) (h₅ : isxdigit c₅ = true) (h₆ : isxdigit c₆ = true) :
    read_color ['#', c₁, c₂, c₃, c₄, c₅, c₆] =
      color_info_t.rgba (((16 * hexval c₁ + hexval c₂ : ℕ) : ℚ) / 255)
        (((16 * hexval c₃ + hexval c₄ : ℕ) : ℚ) / 255)
        (((16 * hexval c₅ + hexval c₆ : ℕ) : ℚ) / 255) 1 := by
  have hc : c_str ['#', c₁, c₂, c₃, c₄, c₅, c₆] = ['#', c₁, c₂, c₃, c₄, c₅, c₆] :=
    c_str_hash_hex _ (by simp [h₁, h₂, h₃, h₄, h₅, h₆])
  simp [read_color, hc, sscanf, scan_hex_seq, scan_hex_two, scan_hex_nil, h₁, h₂, h₃, h₄, h₅,
    h₆]

theorem read_color_four (c₁ c₂ c₃ c₄ : Char)
    (h₁ : isxdigit c₁ = true) (h₂ : isxdigit c₂ = true) (h₃ : isxdigit c₃ = true)
    (h₄ : isxdigit c₄ = true) :
    read_color ['#', c₁, c₂, c₃, c₄] =
      color_info_t.rgba ((hexval c₁ : ℚ) / 15) ((hexval c₂ : ℚ) / 15) ((hexval c₃ : ℚ) / 15)
        ((hexval c₄ : ℚ) / 15) := by
  have hc : c_str ['#', c₁, c₂, c₃, c₄] = ['#', c₁, c₂, c₃, c₄] :=
    c_str_hash_hex _ (by simp [h₁, h₂, h₃, h₄])
  simp [read_color, hc, sscanf, scan_hex_seq, scan_hex_two, scan_hex_one, scan_hex_nil, h₁, h₂,
    h₃, h₄]

theorem read_color_three (c₁ c₂ c₃ : Char)
    (h₁ : isxdigit c₁ = true) (h₂ : isxdigit c₂ = true) (h₃ : isxdigit c₃ = true) :
    read_color ['#', c₁, c₂, c₃] =
      color_info_t.rgba ((hexval c₁ : ℚ) / 15) ((hexval c₂ : ℚ) / 15) ((hexval c₃ : ℚ) / 15)
        1 := by
  have hc : c_str ['#', c₁, c₂, c₃] = ['#', c₁, c₂, c₃] :=
    c_str_hash_hex _ (by simp [h₁, h₂, h₃])
  simp [read_color, hc, sscanf, scan_hex_seq, scan_hex_two, scan_hex_two_single, scan_hex_one,
    scan_hex_nil, h₁, h₂, h₃]

theorem hexval_F : hexval 'F' = 15 := by decide

theorem hexval_0 : hexval '0' = 0 := by decide

theorem hexval_8 : hexval '8' = 8 := by decide

/-- C7: `#` followed by exactly eight hexadecimal digits decodes to the non-blank color
of the four digit pairs over 255; by exactly four digits, to the four digits over 15;
with the alpha digits left out (six digits, three digits) the color channels are decoded
the same way and alpha is 1. `#FF000080` gives `(1,0,0,128/255)` and `#F008` gives
`(1,0,0,8/15)`. -/
theorem read_color_hex_forms (c₁ c₂ c₃ c₄ c₅ c₆ c₇ c₈ : Char)
    (h₁ : isxdigit c₁ = true) (h₂ : isxdigit c₂ = true) (h₃ : isxdigit c₃ = true)
    (h₄ : isxdigit c₄ = true) (h₅ : isxdigit c₅ = true) (h₆ : isxdigit c₆ = true)
    (h₇ : isxdigit c₇ = true) (h₈ : isxdigit c₈ = true) :
    read_color ['#', c₁, c₂, c₃, c₄, c₅, c₆, c₇, c₈] =
      color_info_t.rgba (((16 * hexval c₁ + hexval c₂ : ℕ) : ℚ) / 255)
        (((16 * hexval c₃ + hexval c₄ : ℕ) : ℚ) / 255)
        (((16 * hexval c₅ + hexval c₆ : ℕ) : ℚ) / 255)
        (((16 * hexval c₇ + hexval c₈ : ℕ) : ℚ) / 255) ∧
    read_color ['#', c₁, c₂, c₃, c₄, c₅, c₆] =
      color_info_t.rgba (((16 * hexval c₁ + hexval c₂ : ℕ) : ℚ) / 255)
        (((16 * hexval c₃ + hexval c₄ : ℕ) : ℚ) / 255)
        (((16 * hexval c₅ + hexval c₆ : ℕ) : ℚ) / 255) 1 ∧
    read_color ['#', c₁, c₂, c₃, c₄] =
      color_info_t.rgba ((hexval c₁ : ℚ) / 15) ((hexval c₂ : ℚ) / 15) ((hexval c₃ : ℚ) / 15)
        ((hexval c₄ : ℚ) / 15) ∧
    read_color ['#', c₁, c₂, c₃] =
      color_info_t.rgba ((hexval c₁ : ℚ) / 15) ((hexval c₂ : ℚ) / 15) ((hexval c₃ : ℚ) / 15) 1 ∧
    (read_color ['#', c₁, c₂, c₃, c₄, c₅, c₆, c₇, c₈]).is_blank = false ∧
    (read_color ['#', c₁, c₂, c₃, c₄]).is_blank = false ∧
    read_color "#FF000080".toList = color_info_t.rgba 1 0 0 (128 / 255) ∧
    read_color "#F008".toList = color_info_t.rgba 1 0 0 (8 / 15) := by
  refine ⟨read_color_eight c₁ c₂ c₃ c₄ c₅ c₆ c₇ c₈ h₁ h₂ h₃ h₄ h₅ h₆ h₇ h₈,
    read_color_six c₁ c₂ c₃ c₄ c₅ c₆ h₁ h₂ h₃ h₄ h₅ h₆, read_color_four c₁ c₂ c₃ c₄ h₁ h₂ h₃ h₄,
    read_color_three c₁ c₂ c₃ h₁ h₂ h₃, ?_, ?_, ?_, ?_⟩
  · rw [read_color_eight c₁ c₂ c₃ c₄ c₅ c₆ c₇ c₈ h₁ h₂ h₃ h₄ h₅ h₆ h₇ h₈]; rfl
  · rw [read_color_four c₁ c₂ c₃ c₄ h₁ h₂ h₃ h₄]; rfl
  · have h := read_color_eight 'F' 'F' '0' '0' '0' '0' '8' '0' (by decide) (by decide)
      (by decide) (by decide) (by decide) (by decide) (by decide) (by decide)
    have hs : "#FF000080".toList = ['#', 'F', 'F', '0', '0', '0', '0', '8', '0'] := rfl
    rw [hs, h, hexval_F, hexval_0, hexval_8]
    norm_num [color_info_t.rgba]
  · have h := read_color_four 'F' '0' '0' '8' (by decide) (by decide) (by decide) (by decide)
    have hs : "#F008".toList = ['#', 'F', '0', '0', '8'] := rfl
    rw [hs, h, hexval_F, hexval_0, hexval_8]
    norm_num [color_info_t.rgba]

/-- C7 at the digits of `#FF000080`. -/
theorem read_color_hex_forms_witness :
    isxdigit 'F' = true ∧ isxdigit '0' = true ∧ isxdigit '8' = true ∧
    read_color ['#', 'F', 'F', '0', '0', '0', '0', '8', '0'] =
      color_info_t.rgba (((16 * hexval 'F' + hexval 'F' : ℕ) : ℚ) / 255)
        (((16 * hexval '0' + hexval '0' : ℕ) : ℚ) / 255)
        (((16 * hexval '0' + hexval '0' : ℕ) : ℚ) / 255)
        (((16 * hexval '8' + hexval '0' : ℕ) : ℚ) / 255) :=
  ⟨by decide, by decide, by decide,
    (read_color_hex_forms 'F' 'F' '0' '0' '0' '0' '8' '0' (by decide) (by decide) (by decide)
      (by decide) (by decide) (by decide) (by decide) (by decide)).1⟩

theorem scan_hex_stop (w : Nat) (c : Char) (r : List Char) (h : stops_hex_scan c = true) :
    scan_hex w (c :: r) = none := by
  simp only [stops_hex_scan, Bool.not_eq_true', Bool.or_eq_false_iff,
    decide_eq_false_iff_not] at h
  obtain ⟨⟨⟨⟨⟨hx, hs⟩, h43⟩, h45⟩, _⟩, _⟩ := h
  simp [scan_hex, List.dropWhile_cons, hs, h43, h45, List.takeWhile_cons, hx]

theorem isspace_of_stops {c : Char} (h : stops_hex_scan c = true) : isspace c = false := by
  simp only [stops_hex_scan, Bool.not_eq_true', Bool.or_eq_false_iff,
    decide_eq_false_iff_not] at h
  exact h.1.1.1.1.2

theorem scan_hex_two_stop (d c : Char) (r : List Char) (hd : isxdigit d = true)
    (h : stops_hex_scan c = true) : scan_hex 2 (d :: c :: r) = some (hexval d, c :: r) := by
  simp only [stops_hex_scan, Bool.not_eq_true', Bool.or_eq_false_iff,
    decide_eq_false_iff_not] at h
  obtain ⟨⟨⟨⟨⟨hx, _⟩, _⟩, _⟩, _⟩, _⟩ := h
  have hs := isspace_of_isxdigit hd
  have hr := isxdigit_range hd
  have h43 : ¬ d.toNat = 43 := by omega
  have h45 : ¬ d.toNat = 45 := by omega
  have hb := hexval_lt d
  have hmod : hexval d % 4294967296 = hexval d := Nat.mod_eq_of_lt (by omega)
  simp [scan_hex, List.dropWhile_cons, hs, h43, h45, List.takeWhile_cons, hd, hx, hex_value,
    hmod]

theorem c_str_head_stop (rest : List Char)
    (h : ∀ c, rest.head? = some c → stops_hex_scan c = true) :
    c_str rest = [] ∨ ∃ c r, c_str rest = c :: r ∧ stops_hex_scan c = true := by
  cases rest with
  | nil => left; rfl
  | cons c r =>
    by_cases hc : c.toNat = 0
    · left; simp [c_str, List.takeWhile_cons, hc]
    · right
      exact ⟨c, r.takeWhile (fun c => c.toNat != 0),
        by simp [c_str, List.takeWhile_cons, hc], h c rfl⟩

theorem c_str_append_of_no_nul (ds rest : List Char) (h : ∀ c ∈ ds, c.toNat ≠ 0) :
    c_str (ds ++ rest) = ds ++ c_str rest := by
  induction ds with
  | nil => rfl
  | cons d ds ih =>
    have hd : d.toNat ≠ 0 := h d (List.mem_cons_self _ _)
    have := ih (fun c hc => h c (List.mem_cons_of_mem _ hc))
    simp only [c_str] at this ⊢
    simp [List.takeWhile_cons, hd, this]

theorem read_color_of_c_str_short (s ds rest : List Char) (hs : c_str s = '#' :: (ds ++ rest))
    (hlen : ds.length ≤ 2) (hds : ∀ c ∈ ds, isxdigit c = true)
    (hrest : rest = [] ∨ ∃ c r, rest = c :: r ∧ stops_hex_scan c = true) :
    read_color s = color_info_t.unset := by
  match ds, hlen, hds with
  | [], _, _ =>
    rcases hrest with h | ⟨c, r, h, hc⟩
    · subst h
      simp [read_color, hs, sscanf, scan_hex_seq, scan_hex_nil]
    · subst h
      simp [read_color, hs, sscanf, scan_hex_seq, scan_hex_stop, hc, isspace_of_stops hc]
  | [d₁], _, hds =>
    have h₁ : isxdigit d₁ = true := hds d₁ (by simp)
    rcases hrest with h | ⟨c, r, h, hc⟩
    · subst h
      simp [read_color, hs, sscanf, scan_hex_seq, scan_hex_nil, scan_hex_two_single,
        scan_hex_one, h₁]
    · subst h
      simp [read_color, hs, sscanf, scan_hex_seq, scan_hex_stop, scan_hex_two_stop,
        scan_hex_one, h₁, hc]
  | [d₁, d₂], _, hds =>
    have h₁ : isxdigit d₁ = true := hds d₁ (by simp)
    have h₂ : isxdigit d₂ = true := hds d₂ (by simp)
    rcases hrest with h | ⟨c, r, h, hc⟩
    · subst h
      simp [read_color, hs, sscanf, scan_hex_seq, scan_hex_nil, scan_hex_two,
        scan_hex_one, h₁, h₂]
    · subst h
      simp [read_color, hs, sscanf, scan_hex_seq, scan_hex_stop, scan_hex_two,
        scan_hex_one, h₁, h₂, hc]
  | _ :: _ :: _ :: _, hlen, _ => simp at hlen

theorem read_color_of_no_hash (s : List Char) (h : ∀ t, s ≠ '#' :: t) :
    read_color s = color_info_t.unset := by
  cases s with
  | nil => simp [read_color, c_str, sscanf]
  | cons c t =>
    have hc : c ≠ '#' := fun hc => h t (by rw [hc])
    by_cases h0 : c.toNat = 0
    · simp [read_color, c_str, List.takeWhile_cons, h0, sscanf]
    · simp [read_color, c_str, List.takeWhile_cons, h0, sscanf, hc]

/-- C8 as stated fails: `#12345`, `#1234567` and `#FF0000xyz` are not `#` followed by
exactly 8, 6, 4 or 3 hexadecimal digits, yet `read_color` decodes each of them from its
leading digits into a color that is not blank. -/
theorem read_color_decodes_other_texts :
    is_color_text "#12345".toList = false ∧
    read_color "#12345".toList = color_info_t.rgba (18 / 255) (52 / 255) (5 / 255) 1 ∧
    (read_color "#12345".toList).is_blank = false ∧
    is_color_text "#1234567".toList = false ∧
    (read_color "#1234567".toList).is_blank = false ∧
    is_color_text "#FF0000xyz".toList = false ∧
    read_color "#FF0000xyz".toList = color_info_t.rgba 1 0 0 1 := by
  have h₁ : sscanf 2 (c_str "#12345".toList) [0x00, 0x00, 0x00, 0xFF] = (3, [18, 52, 5, 255]) := by
    decide
  have h₂ : sscanf 2 (c_str "#1234567".toList) [0x00, 0x00, 0x00, 0xFF]
      = (4, [18, 52, 86, 7]) := by decide
  have h₃ : sscanf 2 (c_str "#FF0000xyz".toList) [0x00, 0x00, 0x00, 0xFF]
      = (3, [255, 0, 0, 255]) := by decide
  have e₁ : read_color "#12345".toList = color_info_t.rgba (18 / 255) (52 / 255) (5 / 255) 1 := by
    simp only [read_color, h₁]
    norm_num [color_info_t.rgba]
  have e₂ : (read_color "#1234567".toList).is_blank = false := by
    simp only [read_color, h₂]
    norm_num [color_info_t.rgba, color_info_t.is_blank]
  have e₃ : read_color "#FF0000xyz".toList = color_info_t.rgba 1 0 0 1 := by
    simp only [read_color, h₃]
    norm_num [color_info_t.rgba]
  refine ⟨by decide, e₁, ?_, by decide, e₂, by decide, e₃⟩
  rw [e₁]; rfl

/-- C8, amended: `read_color` returns the blank color for every text that does not begin
with `#` (such as `garbage`), and for every text in which `#` is followed by at most two
hexadecimal digits and then by the end of the text or by a character that is neither a
hexadecimal digit, white space, a sign nor `x`. -/
theorem read_color_blank (s : List Char)
    (h : (∀ t, s ≠ '#' :: t) ∨
      ∃ ds rest, s = '#' :: (ds ++ rest) ∧ ds.length ≤ 2 ∧ (∀ c ∈ ds, isxdigit c = true) ∧
        ∀ c, rest.head? = some c → stops_hex_scan c = true) :
    read_color s = color_info_t.unset ∧ (read_color s).is_blank = true := by
  have key : read_color s = color_info_t.unset := by
    rcases h with h | ⟨ds, rest, hs, hlen, hds, hrest⟩
    · exact read_color_of_no_hash s h
    · apply read_color_of_c_str_short s ds (c_str rest) _ hlen hds (c_str_head_stop rest hrest)
      have := c_str_append_of_no_nul ('#' :: ds) rest (by
        intro c hc
        rcases List.mem_cons.1 hc with hc | hc
        · subst hc; decide
        · exact toNat_ne_zero_of_isxdigit (hds c hc))
      rw [hs]
      simpa using this
  exact ⟨key, by rw [key]; rfl⟩

/-- C8 amended, at the text `garbage`, which does not begin with `#`. -/
theorem read_color_blank_witness :
    read_color "garbage".toList = color_info_t.unset ∧
    (read_color "garbage".toList).is_blank = true :=
  read_color_blank "garbage".toList (Or.inl (by intro t h; simp at h))

/-! ## The font size decoder -/

theorem takeWhile_append_stop {p : Char → Bool} (l r : List Char) (hl : ∀ c ∈ l, p c = true)
    (hr : ∀ c, r.head? = some c → p c = false) : (l ++ r).takeWhile p = l := by
  induction l with
  | nil =>
    cases r with
    | nil => rfl
    | cons c t => simp [List.takeWhile_cons, hr c rfl]
  | cons a l ih =>
    simp [List.takeWhile_cons, hl a (List.mem_cons_self _ _),
      ih (fun c hc => hl c (List.mem_cons_of_mem _ hc))]

theorem dropWhile_append_stop {p : Char → Bool} (l r : List Char) (hl : ∀ c ∈ l, p c = true)
    (hr : ∀ c, r.head? = some c → p c = false) : (l ++ r).dropWhile p = r := by
  induction l with
  | nil =>
    cases r with
    | nil => rfl
    | cons c t => simp [List.dropWhile_cons, hr c rfl]
  | cons a l ih =>
    simp [List.dropWhile_cons, hl a (List.mem_cons_self _ _),
      ih (fun c hc => hl c (List.mem_cons_of_mem _ hc))]

theorem isdigit_range {c : Char} (h : isdigit c = true) : 48 ≤ c.toNat ∧ c.toNat ≤ 57 := by
  simpa [isdigit] using h

theorem atof_digits_then (d : Char) (ds tail : List Char)
    (hipd : ∀ c ∈ d :: ds, isdigit c = true)
    (htail : ∀ c, tail.head? = some c → isdigit c = false) :
    atof (d :: (ds ++ tail)) =
      ((digits_value (d :: ds) : ℚ) +
          (digits_value (fraction_digits tail) : ℚ) / (10 : ℚ) ^ (fraction_digits tail).length) *
        (10 : ℚ) ^ parse_exponent (after_fraction tail) := by
  have hd := isdigit_range (hipd d (List.mem_cons_self _ _))
  have hsp : isspace d = false := by
    simp only [isspace, Bool.or_eq_false_iff, Bool.and_eq_false_iff, decide_eq_false_iff_not]
    omega
  have h43 : ¬ d.toNat = 43 := by omega
  have h45 : ¬ d.toNat = 45 := by omega
  have hws : (d :: (ds ++ tail)).dropWhile isspace = d :: (ds ++ tail) := by
    simp [List.dropWhile_cons, hsp]
  have htw : (d :: (ds ++ tail)).takeWhile isdigit = d :: ds := by
    rw [← List.cons_append]; exact takeWhile_append_stop _ _ hipd htail
  have hdw : (d :: (ds ++ tail)).dropWhile isdigit = tail := by
    rw [← List.cons_append]; exact dropWhile_append_stop _ _ hipd htail
  unfold atof
  simp only [hws, h43, h45, decide_False, Bool.or_self, Bool.false_eq_true, if_false, htw, hdw,
    List.isEmpty_cons, Bool.false_and]

theorem atof_decimal (ip : List Char) (frac : Option (List Char)) (r : List Char)
    (hip : ip ≠ []) (hipd : ∀ c ∈ ip, isdigit c = true)
    (hfd : ∀ fp, frac = some fp → ∀ c ∈ fp, isdigit c = true)
    (hr : ∀ c, r.head? = some c → isdigit c = false ∧ c.toNat ≠ 46)
    (hexp : parse_exponent r = 0) :
    atof (decimal_text ip frac ++ r) = decimal_number ip frac := by
  obtain ⟨d, ds, rfl⟩ := List.exists_cons_of_ne_nil hip
  have hrd : ∀ c, r.head? = some c → isdigit c = false := fun c hc => (hr c hc).1
  cases frac with
  | none =>
    have htext : decimal_text (d :: ds) none ++ r = d :: (ds ++ r) := by
      simp [decimal_text]
    rw [htext, atof_digits_then d ds r hipd hrd]
    have hf : fraction_digits r = [] := by
      cases r with
      | nil => rfl
      | cons c t => simp [fraction_digits, (hr c rfl).2]
    have ha : after_fraction r = r := by
      cases r with
      | nil => rfl
      | cons c t => simp [after_fraction, (hr c rfl).2]
    rw [hf, ha, hexp]
    simp [decimal_number, digits_value]
  | some fp =>
    have hfpd := hfd fp rfl
    have hdot : ∀ c, ('.' :: (fp ++ r)).head? = some c → isdigit c = false := by
      intro c hc
      simp at hc
      subst hc
      decide
    have htw2 : (fp ++ r).takeWhile isdigit = fp := takeWhile_append_stop _ _ hfpd hrd
    have hdw2 : (fp ++ r).dropWhile isdigit = r := dropWhile_append_stop _ _ hfpd hrd
    have htext : decimal_text (d :: ds) (some fp) ++ r = d :: (ds ++ '.' :: (fp ++ r)) := by
      simp [decimal_text]
    have h46 : ('.' : Char).toNat = 46 := by decide
    rw [htext, atof_digits_then d ds _ hipd hdot]
    simp only [fraction_digits, after_fraction, h46, if_true, htw2, hdw2, hexp]
    simp [decimal_number]

theorem spaces_then_head (n : Nat) (u : List Char) (P : Char → Prop) (hsp : P ' ')
    (hu : ∀ c, u.head? = some c → P c) :
    ∀ c, (List.replicate n ' ' ++ u).head? = some c → P c := by
  intro c hc
  cases n with
  | zero => exact hu c (by simpa using hc)
  | succ n =>
    simp [List.replicate_succ] at hc
    subst hc
    exact hsp

theorem parse_exponent_spaces_then (n : Nat) (u : List Char) (hu : parse_exponent u = 0) :
    parse_exponent (List.replicate n ' ' ++ u) = 0 := by
  cases n with
  | zero => simpa using hu
  | succ n =>
    have h₁ : ¬ (' ' : Char).toNat = 101 := by decide
    have h₂ : ¬ (' ' : Char).toNat = 69 := by decide
    simp [List.replicate_succ, parse_exponent, h₁, h₂]

theorem decimal_text_ne_nil (ip : List Char) (frac : Option (List Char)) (hip : ip ≠ []) :
    decimal_text ip frac ≠ [] := by
  simp [decimal_text, hip]

theorem decimal_text_chars (ip : List Char) (frac : Option (List Char))
    (hipd : ∀ c ∈ ip, isdigit c = true)
    (hfd : ∀ fp, frac = some fp → ∀ c ∈ fp, isdigit c = true) :
    ∀ c ∈ decimal_text ip frac, (isdigit c || decide (c.toNat = 46)) = true := by
  intro c hc
  cases frac with
  | none =>
    simp only [decimal_text, List.append_nil] at hc
    simp [hipd c hc]
  | some fp =>
    simp only [decimal_text, List.mem_append, List.mem_cons] at hc
    rcases hc with hc | hc | hc
    · simp [hipd c hc]
    · subst hc; decide
    · simp [hfd fp rfl c hc]

theorem read_font_size_decimal (ip : List Char) (frac : Option (List Char)) (n : Nat)
    (u : List Char) (hip : ip ≠ []) (hipd : ∀ c ∈ ip, isdigit c = true)
    (hfd : ∀ fp, frac = some fp → ∀ c ∈ fp, isdigit c = true)
    (hu₁ : ∀ c, u.head? = some c → isdigit c = false ∧ c.toNat ≠ 46 ∧ c.toNat ≠ 32)
    (hu₂ : parse_exponent u = 0) (hu₃ : ∀ c ∈ u, c.toNat ≠ 0) :
    read_font_size (some (decimal_text ip frac ++ (List.replicate n ' ' ++ u))) =
      (if u = ['p', 't'] ∨ u = [] then decimal_number ip frac
       else if u = ['e', 'm'] then -decimal_number ip frac
       else if u = ['%'] then -decimal_number ip frac / 100
       else -1) := by
  have hchars := decimal_text_chars ip frac hipd hfd
  have hcstr : c_str (decimal_text ip frac ++ (List.replicate n ' ' ++ u)) =
      decimal_text ip frac ++ (List.replicate n ' ' ++ u) := by
    apply c_str_of_no_nul
    intro c hc
    simp only [List.mem_append, List.mem_replicate] at hc
    rcases hc with hc | ⟨_, hc⟩ | hc
    · have := hchars c hc
      simp only [isdigit, Bool.or_eq_true, Bool.and_eq_true, decide_eq_true_eq] at this
      omega
    · subst hc; decide
    · exact hu₃ c hc
  have hr : ∀ c, (List.replicate n ' ' ++ u).head? = some c →
      isdigit c = false ∧ c.toNat ≠ 46 :=
    spaces_then_head n u (fun c => isdigit c = false ∧ c.toNat ≠ 46) (by decide)
      (fun c hc => ⟨(hu₁ c hc).1, (hu₁ c hc).2.1⟩)
  have hatof := atof_decimal ip frac (List.replicate n ' ' ++ u) hip hipd hfd hr
    (parse_exponent_spaces_then n u hu₂)
  have hlast : (decimal_text ip frac ++ (List.replicate n ' ' ++ u)).dropWhile
      (fun c => isdigit c || decide (c.toNat = 46)) = List.replicate n ' ' ++ u := by
    apply dropWhile_append_stop _ _ hchars
    intro c hc
    have := hr c hc
    simp [this.1, this.2]
  have hunit : (List.replicate n ' ' ++ u).dropWhile (fun c => decide (c.toNat = 32)) = u := by
    apply dropWhile_append_stop
    · intro c hc
      rw [List.mem_replicate] at hc
      rw [hc.2]; decide
    · intro c hc
      simpa using (hu₁ c hc).2.2
  have hlen : (List.replicate n ' ' ++ u).length ≠
      (decimal_text ip frac ++ (List.replicate n ' ' ++ u)).length := by
    have := List.length_pos.2 (decimal_text_ne_nil ip frac hip)
    simp only [List.length_append, List.length_replicate]
    omega
  simp only [read_font_size, hcstr, my_strtod, hatof, hlast, hunit]
  rw [if_pos hlen]

theorem parse_exponent_em : parse_exponent ['e', 'm'] = 0 := by decide

theorem digitval_0 : digitval '0' = 0 := by decide

theorem digitval_1 : digitval '1' = 1 := by decide

theorem digitval_2 : digitval '2' = 2 := by decide

theorem digitval_5 : digitval '5' = 5 := by decide

theorem read_font_size_pt (ip : List Char) (frac : Option (List Char)) (n : Nat)
    (hip : ip ≠ []) (hipd : ∀ c ∈ ip, isdigit c = true)
    (hfd : ∀ fp, frac = some fp → ∀ c ∈ fp, isdigit c = true) :
    read_font_size (some (decimal_text ip frac ++ (List.replicate n ' ' ++ ['p', 't']))) =
      decimal_number ip frac := by
  rw [read_font_size_decimal ip frac n ['p', 't'] hip hipd hfd (by
    intro c hc; simp at hc; subst hc; decide) (by decide) (by decide)]
  simp

theorem read_font_size_no_unit (ip : List Char) (frac : Option (List Char)) (n : Nat)
    (hip : ip ≠ []) (hipd : ∀ c ∈ ip, isdigit c = true)
    (hfd : ∀ fp, frac = some fp → ∀ c ∈ fp, isdigit c = true) :
    read_font_size (some (decimal_text ip frac ++ List.replicate n ' ')) =
      decimal_number ip frac := by
  have h := read_font_size_decimal ip frac n [] hip hipd hfd (by simp) (by decide) (by simp)
  simpa using h

theorem read_font_size_em (ip : List Char) (frac : Option (List Char)) (n : Nat)
    (hip : ip ≠ []) (hipd : ∀ c ∈ ip, isdigit c = true)
    (hfd : ∀ fp, frac = some fp → ∀ c ∈ fp, isdigit c = true) :
    read_font_size (some (decimal_text ip frac ++ (List.replicate n ' ' ++ ['e', 'm']))) =
      -decimal_number ip frac := by
  rw [read_font_size_decimal ip frac n ['e', 'm'] hip hipd hfd (by
    intro c hc; simp at hc; subst hc; decide) (by decide) (by decide)]
  simp

theorem read_font_size_percent (ip : List Char) (frac : Option (List Char)) (n : Nat)
    (hip : ip ≠ []) (hipd : ∀ c ∈ ip, isdigit c = true)
    (hfd : ∀ fp, frac = some fp → ∀ c ∈ fp, isdigit c = true) :
    read_font_size (some (decimal_text ip frac ++ (List.replicate n ' ' ++ ['%']))) =
      -(decimal_number ip frac / 100) := by
  rw [read_font_size_decimal ip frac n ['%'] hip hipd hfd (by
    intro c hc; simp at hc; subst hc; decide) (by decide) (by decide)]
  simp [neg_div]

/-- C9: for a decimal literal (digits, optionally followed by `.` and fraction digits)
of value `v`, followed by any number of spaces and a unit, `read_font_size` returns `v`
for the unit `pt` and for no unit, `-v` for `em` and `-(v/100)` for `%`; so `12pt` gives
12, `1.5em` gives -1.5 and `110%` gives -1.1. -/
theorem read_font_size_units (ip : List Char) (frac : Option (List Char)) (n : Nat)
    (hip : ip ≠ []) (hipd : ∀ c ∈ ip, isdigit c = true)
    (hfd : ∀ fp, frac = some fp → ∀ c ∈ fp, isdigit c = true) :
    read_font_size (some (decimal_text ip frac ++ (List.replicate n ' ' ++ "pt".toList))) =
      decimal_number ip frac ∧
    read_font_size (some (decimal_text ip frac ++ List.replicate n ' ')) =
      decimal_number ip frac ∧
    read_font_size (some (decimal_text ip frac ++ (List.replicate n ' ' ++ "em".toList))) =
      -decimal_number ip frac ∧
    read_font_size (some (decimal_text ip frac ++ (List.replicate n ' ' ++ "%".toList))) =
      -(decimal_number ip frac / 100) ∧
    read_font_size (some "12pt".toList) = 12 ∧
    read_font_size (some "1.5em".toList) = -(3 / 2) ∧
    read_font_size (some "110%".toList) = -(11 / 10) := by
  refine ⟨read_font_size_pt ip frac n hip hipd hfd, read_font_size_no_unit ip frac n hip hipd hfd,
    read_font_size_em ip frac n hip hipd hfd, read_font_size_percent ip frac n hip hipd hfd,
    ?_, ?_, ?_⟩
  · have h := read_font_size_pt ['1', '2'] none 0 (by simp) (by decide) (by simp)
    rw [show "12pt".toList = decimal_text ['1', '2'] none ++ (List.replicate 0 ' ' ++ ['p', 't'])
      from rfl, h]
    norm_num [decimal_number, digits_value, digitval_1, digitval_2]
  · have h := read_font_size_em ['1'] (some ['5']) 0 (by simp) (by decide)
      (by intro fp hfp; cases hfp; decide)
    rw [show "1.5em".toList =
      decimal_text ['1'] (some ['5']) ++ (List.replicate 0 ' ' ++ ['e', 'm']) from rfl, h]
    norm_num [decimal_number, digits_value, digitval_1, digitval_5]
  · have h := read_font_size_percent ['1', '1', '0'] none 0 (by simp) (by decide) (by simp)
    rw [show "110%".toList =
      decimal_text ['1', '1', '0'] none ++ (List.replicate 0 ' ' ++ ['%']) from rfl, h]
    norm_num [decimal_number, digits_value, digitval_0, digitval_1]

/-- C9 at the literal `1.5` followed by two spaces. -/
theorem read_font_size_units_witness :
    read_font_size (some "1.5  pt".toList) = decimal_number ['1'] (some ['5']) ∧
    read_font_size (some "1.5  ".toList) = decimal_number ['1'] (some ['5']) ∧
    read_font_size (some "1.5  em".toList) = -decimal_number ['1'] (some ['5']) ∧
    read_font_size (some "1.5  %".toList) = -(decimal_number ['1'] (some ['5']) / 100) ∧
    decimal_number ['1'] (some ['5']) = 3 / 2 := by
  have h := read_font_size_units ['1'] (some ['5']) 2 (by simp) (by decide)
    (by intro fp hfp; cases hfp; decide)
  exact ⟨h.1, h.2.1, h.2.2.1, h.2.2.2.1,
    by norm_num [decimal_number, digits_value, digitval_1, digitval_5]⟩

theorem c_str_point : c_str ['.'] = ['.'] := by decide

theorem c_str_xyz : c_str ['x', 'y', 'z'] = ['x', 'y', 'z'] := by decide

theorem c_str_minus_5pt : c_str ['-', '5', 'p', 't'] = ['-', '5', 'p', 't'] := by decide

theorem atof_point : atof ['.'] = 0 := by
  have h₁ : List.dropWhile isspace ['.'] = ['.'] := by decide
  have h₂ : List.takeWhile isdigit ['.'] = [] := by decide
  have h₃ : List.dropWhile isdigit ['.'] = ['.'] := by decide
  have h₄ : fraction_digits ['.'] = [] := by decide
  have h₅ : ¬ ('.' : Char).toNat = 43 := by decide
  have h₆ : ¬ ('.' : Char).toNat = 45 := by decide
  unfold atof
  simp only [h₁, h₂, h₃, h₄, h₅, h₆, decide_False, Bool.or_self, Bool.false_eq_true, if_false,
    List.isEmpty_nil, Bool.and_self, if_true]

/-- C10 fails on the code at the text `.`: `atof` reads no number from it but `my_strtod`
steps over the point, so `read_font_size` returns 0 instead of the sentinel -1, and a rule
carrying that size sets a merged font size of 12 to 0. The texts `xyz` and `-5pt` and
the absent text do give -1, which leaves the font size 12 unchanged. -/
theorem read_font_size_lone_point :
    read_font_size (some ".".toList) = 0 ∧
    (merge (decomposed_style_t.init [] none 12)
      (decomposed_style_t.init [] none (read_font_size (some ".".toList)))).font_size = 0 ∧
    read_font_size none = -1 ∧
    read_font_size (some "xyz".toList) = -1 ∧
    read_font_size (some "-5pt".toList) = -1 ∧
    (merge (decomposed_style_t.init [] none 12)
      (decomposed_style_t.init [] none (read_font_size (some "xyz".toList)))).font_size = 12 := by
  have hp : read_font_size (some ".".toList) = 0 := by
    have hl : List.dropWhile (fun c => isdigit c || decide (c.toNat = 46)) ['.'] = [] := by
      decide
    have hs : ".".toList = ['.'] := rfl
    simp only [read_font_size, hs, c_str_point, my_strtod, atof_point, hl]
    simp
  have hx : read_font_size (some "xyz".toList) = -1 := by
    have hl : List.dropWhile (fun c => isdigit c || decide (c.toNat = 46)) ['x', 'y', 'z']
        = ['x', 'y', 'z'] := by decide
    have hs : "xyz".toList = ['x', 'y', 'z'] := rfl
    simp only [read_font_size, hs, c_str_xyz, my_strtod, hl]
    simp
  have hm : read_font_size (some "-5pt".toList) = -1 := by
    have hl : List.dropWhile (fun c => isdigit c || decide (c.toNat = 46)) ['-', '5', 'p', 't']
        = ['-', '5', 'p', 't'] := by decide
    have hs : "-5pt".toList = ['-', '5', 'p', 't'] := rfl
    simp only [read_font_size, hs, c_str_minus_5pt, my_strtod, hl]
    simp
  refine ⟨hp, ?_, rfl, hx, hm, ?_⟩
  · rw [hp]; simp [merge, decomposed_style_t.init]
  · rw [hx]; simp [merge, decomposed_style_t.init]

/-! ## Totality, caching and the algebra of the merge -/

theorem find_cache_entry_fst (cache : List (scope_t × styles_t)) (scope : scope_t)
    (e : scope_t × styles_t) (h : cache.find? (fun e => e.1 = scope) = some e) :
    e = (scope, e.2) := by
  have := List.find?_some h
  have h1 : e.1 = scope := by simpa using this
  rw [← h1]

/-- C17: a call `styles_for_scope(s)` leaves the cache mapping `s` to the style it
returns and every other scope as before; the cache is unchanged or has that one entry
added. A second call for `s` on the resulting instance returns the same style and does
not change the cache, whatever the rule list and the global settings have become. -/
theorem styles_for_scope_caches (ext ext' : externals) (t : theme_t) (s : scope_t)
    (styles' : shared_styles_t) :
    (∀ s' : scope_t,
      (theme_t.styles_for_scope ext t s).2._cache.find? (fun e => e.1 = s') =
        if s' = s then some (s, (theme_t.styles_for_scope ext t s).1)
        else t._cache.find? (fun e => e.1 = s')) ∧
    ((theme_t.styles_for_scope ext t s).2._cache = t._cache ∨
      (theme_t.styles_for_scope ext t s).2._cache =
        t._cache ++ [(s, (theme_t.styles_for_scope ext t s).1)]) ∧
    (theme_t.styles_for_scope ext' (theme_t.styles_for_scope ext t s).2 s).1 =
      (theme_t.styles_for_scope ext t s).1 ∧
    (theme_t.styles_for_scope ext' (theme_t.styles_for_scope ext t s).2 s).2 =
      (theme_t.styles_for_scope ext t s).2 ∧
    (theme_t.styles_for_scope ext'
        { (theme_t.styles_for_scope ext t s).2 with _styles := styles' } s).1 =
      (theme_t.styles_for_scope ext t s).1 ∧
    (theme_t.styles_for_scope ext'
        { (theme_t.styles_for_scope ext t s).2 with _styles := styles' } s).2._cache =
      (theme_t.styles_for_scope ext t s).2._cache := by
  cases hfind : t._cache.find? (fun e => e.1 = s) with
  | some e =>
    have he := find_cache_entry_fst _ _ _ hfind
    have hcall : theme_t.styles_for_scope ext t s = (e.2, t) := by
      simp [theme_t.styles_for_scope, hfind]
    rw [hcall]
    refine ⟨?_, Or.inl rfl, ?_, ?_, ?_, ?_⟩
    · intro s'
      by_cases hs : s' = s
      · rw [if_pos hs, hs, hfind, he]
      · simp [hs]
    · simp [theme_t.styles_for_scope, hfind]
    · simp [theme_t.styles_for_scope, hfind]
    · simp [theme_t.styles_for_scope, hfind]
    · simp [theme_t.styles_for_scope, hfind]
  | none =>
    have hcall : theme_t.styles_for_scope ext t s =
        (theme_t.make_styles ext t (theme_t.base ext t s),
          { t with _cache := t._cache ++ [(s, theme_t.make_styles ext t (theme_t.base ext t s))] }) := by
      simp [theme_t.styles_for_scope, hfind]
    rw [hcall]
    have hnew : (t._cache ++ [(s, theme_t.make_styles ext t (theme_t.base ext t s))]).find?
        (fun e => e.1 = s) = some (s, theme_t.make_styles ext t (theme_t.base ext t s)) := by
      rw [List.find?_append, hfind]
      simp
    refine ⟨?_, Or.inr rfl, ?_, ?_, ?_, ?_⟩
    · intro s'
      by_cases hs : s' = s
      · rw [if_pos hs, hs]; exact hnew
      · have hne : ¬ s = s' := fun h => hs h.symm
        simp [List.find?_append, hs, hne]
    · simp [theme_t.styles_for_scope, hnew]
    · simp [theme_t.styles_for_scope, hnew]
    · simp [theme_t.styles_for_scope, hnew]
    · simp [theme_t.styles_for_scope, hnew]

theorem blend_in_range (l r : color_info_t) (hl : color_in_range l) (hr : color_in_range r)
    (hrb : r.is_blank = false) : color_in_range (blend l r) := by
  unfold blend
  by_cases hlb : l.is_blank = true
  · simp only [hlb, if_true]; exact hr
  · rcases hl with hl | hl
    · exact absurd hl hlb
    · rcases hr with hr | hr
      · rw [hrb] at hr; exact absurd hr (by simp)
      · simp only [hlb, if_false, Bool.false_eq_true]
        right
        obtain ⟨l1, l2, l3, l4, l5, l6, l7, l8⟩ := hl
        obtain ⟨r1, r2, r3, r4, r5, r6, r7, r8⟩ := hr
        simp only [color_info_t.rgba]
        have ha : 0 ≤ 1 - r.alpha := by linarith
        refine ⟨?_, ?_, ?_, ?_, ?_, ?_, l7, l8⟩
        · positivity
        · nlinarith
        · positivity
        · nlinarith
        · positivity
        · nlinarith

/-- C19: the merge keeps the color range. When every color field of `L` and of `R` is
blank or has red, green, blue and alpha in [0,1], the same holds of every color field of
`L += R`; the blended background in particular stays in [0,1]. -/
theorem merge_preserves_color_range (L R : decomposed_style_t) (hL : style_in_range L)
    (hR : style_in_range R) : style_in_range (merge L R) := by
  obtain ⟨hL1, hL2, hL3, hL4, hL5⟩ := hL
  obtain ⟨hR1, hR2, hR3, hR4, hR5⟩ := hR
  refine ⟨?_, ?_, ?_, ?_, ?_⟩
  · by_cases h : R.foreground.is_blank = true
    · simpa [merge, h] using hL1
    · simpa [merge, h] using hR1
  · by_cases h : R.background.is_blank = true
    · simpa [merge, h] using hL2
    · have h' : R.background.is_blank = false := by simpa using h
      simpa [merge, h] using blend_in_range _ _ hL2 hR2 h'
  · by_cases h : R.caret.is_blank = true
    · simpa [merge, h] using hL3
    · simpa [merge, h] using hR3
  · by_cases h : R.selection.is_blank = true
    · simpa [merge, h] using hL4
    · simpa [merge, h] using hR4
  · by_cases h : R.invisibles.is_blank = true
    · simpa [merge, h] using hL5
    · simpa [merge, h] using hR5

theorem color_in_range_unset : color_in_range color_info_t.unset := Or.inl rfl

/-- C19 at a black opaque background merged with a half-transparent white one. -/
theorem merge_preserves_color_range_witness :
    style_in_range { decomposed_style_t.init [] none (-1) with
        background := color_info_t.rgba 0 0 0 1 } ∧
    style_in_range { decomposed_style_t.init [] none (-1) with
        background := color_info_t.rgba 1 1 1 (1 / 2) } ∧
    style_in_range (merge
      { decomposed_style_t.init [] none (-1) with background := color_info_t.rgba 0 0 0 1 }
      { decomposed_style_t.init [] none (-1) with
          background := color_info_t.rgba 1 1 1 (1 / 2) }) := by
  have h₁ : style_in_range { decomposed_style_t.init [] none (-1) with
      background := color_info_t.rgba 0 0 0 1 } :=
    ⟨color_in_range_unset, Or.inr (by norm_num [color_info_t.rgba]), color_in_range_unset,
      color_in_range_unset, color_in_range_unset⟩
  have h₂ : style_in_range { decomposed_style_t.init [] none (-1) with
      background := color_info_t.rgba 1 1 1 (1 / 2) } :=
    ⟨color_in_range_unset, Or.inr (by norm_num [color_info_t.rgba]), color_in_range_unset,
      color_in_range_unset, color_in_range_unset⟩
  exact ⟨h₁, h₂, merge_preserves_color_range _ _ h₁ h₂⟩

/-- C20: the all-unset style `E` (no font name, font size -1, every color blank, every
tri-state unset) is a two-sided identity of the merge. `S += E` is `S`. `E += S` has the
font name, the font size and the four tri-states of `S`, and each color of `S`: blank
where `S` has it blank, and the value of `S` otherwise, the background with its own
alpha and not blended. -/
theorem unset_style_is_merge_identity (S : decomposed_style_t) (sel : selector_t) :
    merge S (decomposed_style_t.init sel none (-1)) = S ∧
    (merge (decomposed_style_t.init sel none (-1)) S).font_name = S.font_name ∧
    (merge (decomposed_style_t.init sel none (-1)) S).font_size = S.font_size ∧
    (merge (decomposed_style_t.init sel none (-1)) S).foreground =
      (if S.foreground.is_blank then color_info_t.unset else S.foreground) ∧
    (merge (decomposed_style_t.init sel none (-1)) S).background =
      (if S.background.is_blank then color_info_t.unset else S.background) ∧
    (merge (decomposed_style_t.init sel none (-1)) S).caret =
      (if S.caret.is_blank then color_info_t.unset else S.caret) ∧
    (merge (decomposed_style_t.init sel none (-1)) S).selection =
      (if S.selection.is_blank then color_info_t.unset else S.selection) ∧
    (merge (decomposed_style_t.init sel none (-1)) S).invisibles =
      (if S.invisibles.is_blank then color_info_t.unset else S.invisibles) ∧
    same_color (merge (decomposed_style_t.init sel none (-1)) S).foreground S.foreground ∧
    same_color (merge (decomposed_style_t.init sel none (-1)) S).background S.background ∧
    same_color (merge (decomposed_style_t.init sel none (-1)) S).caret S.caret ∧
    same_color (merge (decomposed_style_t.init sel none (-1)) S).selection S.selection ∧
    same_color (merge (decomposed_style_t.init sel none (-1)) S).invisibles S.invisibles ∧
    (merge (decomposed_style_t.init sel none (-1)) S).bold = S.bold ∧
    (merge (decomposed_style_t.init sel none (-1)) S).italic = S.italic ∧
    (merge (decomposed_style_t.init sel none (-1)) S).underlined = S.underlined ∧
    (merge (decomposed_style_t.init sel none (-1)) S).misspelled = S.misspelled := by
  have hfg : (merge (decomposed_style_t.init sel none (-1)) S).foreground =
      (if S.foreground.is_blank then color_info_t.unset else S.foreground) := by
    simp [merge, decomposed_style_t.init]
  have hbg : (merge (decomposed_style_t.init sel none (-1)) S).background =
      (if S.background.is_blank then color_info_t.unset else S.background) := by
    by_cases h : S.background.is_blank = true <;>
      simp [merge, decomposed_style_t.init, blend, color_info_t.unset, color_info_t.is_blank, h]
  have hca : (merge (decomposed_style_t.init sel none (-1)) S).caret =
      (if S.caret.is_blank then color_info_t.unset else S.caret) := by
    simp [merge, decomposed_style_t.init]
  have hse : (merge (decomposed_style_t.init sel none (-1)) S).selection =
      (if S.selection.is_blank then color_info_t.unset else S.selection) := by
    simp [merge, decomposed_style_t.init]
  have hin : (merge (decomposed_style_t.init sel none (-1)) S).invisibles =
      (if S.invisibles.is_blank then color_info_t.unset else S.invisibles) := by
    simp [merge, decomposed_style_t.init]
  have hsame : ∀ c : color_info_t,
      same_color (if c.is_blank then color_info_t.unset else c) c := by
    intro c
    by_cases h : c.is_blank = true
    · simp only [h, if_true]; exact Or.inl ⟨rfl, h⟩
    · simp only [h, if_false, Bool.false_eq_true]; exact Or.inr rfl
  refine ⟨?_, ?_, ?_, hfg, hbg, hca, hse, hin, ?_, ?_, ?_, ?_, ?_, ?_, ?_, ?_, ?_⟩
  · cases S
    simp [merge, decomposed_style_t.init, color_info_t.unset, color_info_t.is_blank]
  · cases h : S.font_name <;> simp [merge, decomposed_style_t.init, h]
  · by_cases h : 0 < S.font_size
    · simp [merge, decomposed_style_t.init, h]
    · have h' : S.font_size ≤ 0 := not_lt.1 h
      simp [merge, decomposed_style_t.init, h, abs_of_nonpos h']
  · rw [hfg]; exact hsame _
  · rw [hbg]; exact hsame _
  · rw [hca]; exact hsame _
  · rw [hse]; exact hsame _
  · rw [hin]; exact hsame _
  · cases h : S.bold <;> simp [merge, decomposed_style_t.init, h]
  · cases h : S.italic <;> simp [merge, decomposed_style_t.init, h]
  · cases h : S.underlined <;> simp [merge, decomposed_style_t.init, h]
  · cases h : S.misspelled <;> simp [merge, decomposed_style_t.init, h]

/-! ## Theme documents: `parse_styles` and the rule list -/

theorem string_find_iff_infix (str pat : List Char) :
    string_find str pat = true ↔ pat <:+: str := by
  induction str with
  | nil =>
    cases pat with
    | nil => simp [string_find]
    | cons p ps => simp [string_find]
  | cons c t ih =>
    rw [string_find, Bool.or_eq_true, ih, List.infix_cons_iff]
    simp [List.isPrefixOf_iff_prefix]

theorem parse_styles_bold (dict : dictionary_t) :
    (parse_styles dict).bold =
      (match plist.get_string dict ["settings", "fontStyle"] with
       | none => bool_unset
       | some fontStyle =>
         if string_find fontStyle "plain".toList then bool_false
         else if string_find fontStyle "bold".toList then bool_true else bool_unset) := by
  unfold parse_styles
  generalize plist.get_string dict ["scope"] = o₁
  generalize plist.get_string dict ["settings", "fontName"] = o₂
  generalize plist.get_string dict ["settings", "fontStyle"] = o₃
  cases o₁ <;> cases o₂ <;> cases o₃ <;> simp [decomposed_style_t.init] <;>
    split_ifs <;> simp

theorem parse_styles_italic (dict : dictionary_t) :
    (parse_styles dict).italic =
      (match plist.get_string dict ["settings", "fontStyle"] with
       | none => bool_unset
       | some fontStyle =>
         if string_find fontStyle "plain".toList then bool_false
         else if string_find fontStyle "italic".toList then bool_true else bool_unset) := by
  unfold parse_styles
  generalize plist.get_string dict ["scope"] = o₁
  generalize plist.get_string dict ["settings", "fontName"] = o₂
  generalize plist.get_string dict ["settings", "fontStyle"] = o₃
  cases o₁ <;> cases o₂ <;> cases o₃ <;> simp [decomposed_style_t.init] <;>
    split_ifs <;> simp

theorem parse_styles_underlined (dict : dictionary_t) :
    (parse_styles dict).underlined =
      (match plist.get_string dict ["settings", "fontStyle"] with
       | none => bool_unset
       | some fontStyle =>
         if string_find fontStyle "plain".toList then bool_false
         else if string_find fontStyle "underline".toList then bool_true else bool_unset) := by
  unfold parse_styles
  generalize plist.get_string dict ["scope"] = o₁
  generalize plist.get_string dict ["settings", "fontName"] = o₂
  generalize plist.get_string dict ["settings", "fontStyle"] = o₃
  cases o₁ <;> cases o₂ <;> cases o₃ <;> simp [decomposed_style_t.init] <;>
    split_ifs <;> simp

theorem parse_styles_misspelled (dict : dictionary_t) :
    (parse_styles dict).misspelled =
      (match plist.get_bool dict ["settings", "misspelled"] with
       | none => bool_unset
       | some flag => if flag then bool_true else bool_false) := by
  unfold parse_styles
  generalize plist.get_string dict ["scope"] = o₁
  generalize plist.get_string dict ["settings", "fontName"] = o₂
  generalize plist.get_string dict ["settings", "fontStyle"] = o₃
  generalize plist.get_bool dict ["settings", "misspelled"] = o₄
  cases o₁ <;> cases o₂ <;> cases o₃ <;> cases o₄ <;> simp [decomposed_style_t.init] <;>
    split_ifs <;> simp

/-- C15: `parse_styles` decodes `settings.fontStyle` as follows. Without the key, bold,
italic and underlined are unset. With a text that contains `plain`, all three are
explicit false whatever else the text contains. Otherwise each of bold, italic and
underlined is true when the text contains `bold`, `italic`, `underline` and unset when
it does not. `misspelled` is true or false as the boolean `settings.misspelled` says and
unset without that key. -/
theorem parse_styles_font_style (dict : dictionary_t) :
    (parse_styles dict).bold =
      (match plist.get_string dict ["settings", "fontStyle"] with
       | none => bool_unset
       | some fontStyle =>
         if string_find fontStyle "plain".toList then bool_false
         else if string_find fontStyle "bold".toList then bool_true else bool_unset) ∧
    (parse_styles dict).italic =
      (match plist.get_string dict ["settings", "fontStyle"] with
       | none => bool_unset
       | some fontStyle =>
         if string_find fontStyle "plain".toList then bool_false
         else if string_find fontStyle "italic".toList then bool_true else bool_unset) ∧
    (parse_styles dict).underlined =
      (match plist.get_string dict ["settings", "fontStyle"] with
       | none => bool_unset
       | some fontStyle =>
         if string_find fontStyle "plain".toList then bool_false
         else if string_find fontStyle "underline".toList then bool_true else bool_unset) ∧
    (parse_styles dict).misspelled =
      (match plist.get_bool dict ["settings", "misspelled"] with
       | none => bool_unset
       | some flag => if flag then bool_true else bool_false) ∧
    (parse_styles [("settings", plist_t.dictionary
        [("fontStyle", plist_t.string "bold plain".toList)])]).bold = bool_false ∧
    (parse_styles [("settings", plist_t.dictionary
        [("fontStyle", plist_t.string "bold italic".toList)])]).underlined = bool_unset := by
  refine ⟨parse_styles_bold dict, parse_styles_italic dict, parse_styles_underlined dict,
    parse_styles_misspelled dict, ?_, ?_⟩
  · have hfs : plist.get_string [("settings", plist_t.dictionary
        [("fontStyle", plist_t.string "bold plain".toList)])] ["settings", "fontStyle"]
        = some "bold plain".toList := by
      simp [plist.get_string, plist.find_key_path, List.lookup]
    have hp : string_find "bold plain".toList "plain".toList = true := by decide
    rw [parse_styles_bold, hfs]
    simp only [hp, if_true]
  · have hfs : plist.get_string [("settings", plist_t.dictionary
        [("fontStyle", plist_t.string "bold italic".toList)])] ["settings", "fontStyle"]
        = some "bold italic".toList := by
      simp [plist.get_string, plist.find_key_path, List.lookup]
    have hp : string_find "bold italic".toList "plain".toList = false := by decide
    have hu : string_find "bold italic".toList "underline".toList = false := by decide
    rw [parse_styles_underlined, hfs]
    simp only [hp, hu, if_false, Bool.false_eq_true]

theorem push_styles_dictionaries (entries : List dictionary_t) :
    ∀ acc : List decomposed_style_t,
      push_styles acc (entries.map plist_t.dictionary) = acc ++ entries.flatMap rules_of_entry := by
  induction entries with
  | nil => intro acc; simp [push_styles]
  | cons d ds ih =>
    intro acc
    have hstep : push_styles acc ((d :: ds).map plist_t.dictionary) =
        push_styles (acc ++ rules_of_entry d) (ds.map plist_t.dictionary) := by
      by_cases hb : (parse_styles d).invisibles.is_blank = true
      · simp [push_styles, rules_of_entry, hb]
      · simp [push_styles, rules_of_entry, hb]
    rw [hstep, ih, List.flatMap_cons, List.append_assoc]

theorem length_flatMap_rules_of_entry (entries : List dictionary_t) :
    (entries.flatMap rules_of_entry).length =
      entries.length + entries.countP (fun d => !(parse_styles d).invisibles.is_blank) := by
  induction entries with
  | nil => rfl
  | cons d ds ih =>
    rw [List.flatMap_cons, List.length_append, ih, List.countP_cons, List.length_cons]
    by_cases hb : (parse_styles d).invisibles.is_blank = true
    · simp [rules_of_entry, hb]; omega
    · simp [rules_of_entry, hb]; omega

theorem item_styles_of_entries (doc : dictionary_t) (entries : List dictionary_t)
    (h : plist.get_array doc ["settings"] = some (entries.map plist_t.dictionary)) :
    item_styles (some doc) = entries.flatMap rules_of_entry := by
  simp [item_styles, h, push_styles_dictionaries]

/-- C18: for a theme document whose `settings` array is a list of rule dictionaries, the
rule list that `setup_styles` builds is the concatenation, in declaration order, of each
entry's decoded rule followed, exactly when that rule sets `invisibles`, by one rule
with the selector `deco.invisible`, that color as foreground and nothing else set. Its
length is the number of entries plus the number of entries that set `invisibles`, and
its first rule is the decoded first entry. -/
theorem setup_styles_rule_list (doc : dictionary_t) (entries : List dictionary_t)
    (old : gutter_styles_t)
    (h : plist.get_array doc ["settings"] = some (entries.map plist_t.dictionary)) :
    (setup_styles (some doc) old)._styles = entries.flatMap rules_of_entry ∧
    (setup_styles (some doc) old)._styles.length =
      entries.length + entries.countP (fun d => !(parse_styles d).invisibles.is_blank) ∧
    (setup_styles (some doc) old)._styles.head? = entries.head?.map parse_styles ∧
    (∀ d : dictionary_t, rules_of_entry d =
      if (parse_styles d).invisibles.is_blank then [parse_styles d]
      else [parse_styles d,
        { scope_selector := "deco.invisible".toList, font_name := none, font_size := -1,
          foreground := (parse_styles d).invisibles, background := color_info_t.unset,
          caret := color_info_t.unset, selection := color_info_t.unset,
          invisibles := color_info_t.unset, bold := bool_unset, italic := bool_unset,
          underlined := bool_unset, misspelled := bool_unset }]) := by
  have hs : (setup_styles (some doc) old)._styles = entries.flatMap rules_of_entry :=
    item_styles_of_entries doc entries h
  refine ⟨hs, ?_, ?_, ?_⟩
  · rw [hs, length_flatMap_rules_of_entry]
  · rw [hs]
    cases entries with
    | nil => rfl
    | cons d ds =>
      by_cases hb : (parse_styles d).invisibles.is_blank = true <;>
        simp [List.flatMap_cons, rules_of_entry, hb]
  · intro d
    rfl

/-! ## The darkness test in `double` arithmetic -/

theorem floor_log2_fuel_bounds (fuel : Nat) : ∀ n : Nat, n ≤ fuel → n ≠ 0 →
    2 ^ floor_log2_fuel fuel n ≤ n ∧ n < 2 ^ (floor_log2_fuel fuel n + 1) := by
  induction fuel with
  | zero =>
    intro n hn h0
    omega
  | succ fuel ih =>
    intro n hn h0
    unfold floor_log2_fuel
    by_cases h2 : n < 2
    · rw [if_pos h2]
      constructor
      · simp
        omega
      · simpa using h2
    · rw [if_neg h2]
      have hle : n / 2 ≤ fuel := by omega
      have hne : n / 2 ≠ 0 := by omega
      obtain ⟨h1, h3⟩ := ih (n / 2) hle hne
      constructor
      · rw [pow_succ]
        omega
      · rw [pow_succ] at h3 ⊢
        omega

/-- The whole part of the binary logarithm: `2 ^ floor_log2 n ≤ n < 2 ^ (floor_log2 n + 1)`
for every `n` other than 0. -/
theorem floor_log2_bounds (n : Nat) (h : n ≠ 0) :
    2 ^ floor_log2 n ≤ n ∧ n < 2 ^ (floor_log2 n + 1) :=
  floor_log2_fuel_bounds n n (le_refl n) h

/-- The rounding to the nearest `double` at some known values: 0, 1 and one half are
doubles; one tenth rounds to the double `0x1.999999999999ap-4` and one third to
`0x1.5555555555555p-2`; the midpoint `1 + 2^-53` of two doubles goes to the even one, 1,
and the midpoint `1 + 3 * 2^-53` to the even one, `1 + 2^-51`. -/
theorem to_double_examples :
    to_double 0 = 0 ∧ to_double 1 = 1 ∧ to_double (1 / 2) = 1 / 2 ∧
    to_double (-1 / 2) = -1 / 2 ∧
    to_double (1 / 10) = 3602879701896397 / 36028797018963968 ∧
    to_double (1 / 3) = 6004799503160661 / 18014398509481984 ∧
    to_double (9007199254740993 / 9007199254740992) = 1 ∧
    to_double (9007199254740995 / 9007199254740992) = 2251799813685249 / 2251799813685248 := by
  refine ⟨?_, ?_, ?_, ?_, ?_, ?_, ?_, ?_⟩ <;> decide!

/-- The sum of theme.cc 41 for white, in doubles: just below 1. -/
theorem double_luma_white :
    double_luma 1 1 1 = (9007199254740991 / 9007199254740992) := by
  have h1 : (to_double (3 / 10) : ℚ) = (5404319552844595 / 18014398509481984) := by decide!
  have h2 : (to_double 1 : ℚ) = 1 := by decide!
  have h3 : (to_double ((5404319552844595 / 18014398509481984) * 1) : ℚ) = (5404319552844595 / 18014398509481984) := by decide!
  have h4 : (to_double (59 / 100) : ℚ) = (5314247560297185 / 9007199254740992) := by decide!
  have h6 : (to_double ((5314247560297185 / 9007199254740992) * 1) : ℚ) = (5314247560297185 / 9007199254740992) := by decide!
  have h7 : (to_double ((5404319552844595 / 18014398509481984) + (5314247560297185 / 9007199254740992)) : ℚ) = (4008203668359741 / 4503599627370496) := by decide!
  have h8 : (to_double (11 / 100) : ℚ) = (7926335344172073 / 72057594037927936) := by decide!
  have h10 : (to_double ((7926335344172073 / 72057594037927936) * 1) : ℚ) = (7926335344172073 / 72057594037927936) := by decide!
  have h11 : (to_double ((4008203668359741 / 4503599627370496) + (7926335344172073 / 72057594037927936)) : ℚ) = (9007199254740991 / 9007199254740992) := by decide!
  unfold double_luma
  simp only [h1, h2, h3, h4, h6, h7, h8, h10, h11]

/-- The sum of theme.cc 41 for black, in doubles. -/
theorem double_luma_black :
    double_luma 0 0 0 = 0 := by
  have h1 : (to_double (3 / 10) : ℚ) = (5404319552844595 / 18014398509481984) := by decide!
  have h2 : (to_double 0 : ℚ) = 0 := by decide!
  have h3 : (to_double ((5404319552844595 / 18014398509481984) * 0) : ℚ) = 0 := by decide!
  have h4 : (to_double (59 / 100) : ℚ) = (5314247560297185 / 9007199254740992) := by decide!
  have h6 : (to_double ((5314247560297185 / 9007199254740992) * 0) : ℚ) = 0 := by decide!
  have h7 : (to_double (0 + 0) : ℚ) = 0 := by decide!
  have h8 : (to_double (11 / 100) : ℚ) = (7926335344172073 / 72057594037927936) := by decide!
  have h10 : (to_double ((7926335344172073 / 72057594037927936) * 0) : ℚ) = 0 := by decide!
  unfold double_luma
  simp only [h1, h2, h3, h4, h6, h7, h8, h10]

/-- The sum of theme.cc 41 for the color `#00B3C7`, in doubles: just below one half, where the
exact sum is one half. -/
theorem double_luma_cyan :
    double_luma 0 (179 / 255) (199 / 255) = (9007199254740991 / 18014398509481984) := by
  have h1 : (to_double (3 / 10) : ℚ) = (5404319552844595 / 18014398509481984) := by decide!
  have h2 : (to_double 0 : ℚ) = 0 := by decide!
  have h3 : (to_double ((5404319552844595 / 18014398509481984) * 0) : ℚ) = 0 := by decide!
  have h4 : (to_double (59 / 100) : ℚ) = (5314247560297185 / 9007199254740992) := by decide!
  have h5 : (to_double (179 / 255) : ℚ) = (3161350326663995 / 4503599627370496) := by decide!
  have h6 : (to_double ((5314247560297185 / 9007199254740992) * (3161350326663995 / 4503599627370496)) : ℚ) = (1865196692731757 / 4503599627370496) := by decide!
  have h7 : (to_double (0 + (1865196692731757 / 4503599627370496)) : ℚ) = (1865196692731757 / 4503599627370496) := by decide!
  have h8 : (to_double (11 / 100) : ℚ) = (7926335344172073 / 72057594037927936) := by decide!
  have h9 : (to_double (199 / 255) : ℚ) = (7029147653699833 / 9007199254740992) := by decide!
  have h10 : (to_double ((7926335344172073 / 72057594037927936) * (7029147653699833 / 9007199254740992)) : ℚ) = (6185649935255853 / 72057594037927936) := by decide!
  have h11 : (to_double ((1865196692731757 / 4503599627370496) + (6185649935255853 / 72057594037927936)) : ℚ) = (9007199254740991 / 18014398509481984) := by decide!
  unfold double_luma
  simp only [h1, h2, h3, h4, h5, h6, h7, h8, h9, h10, h11]

theorem color_is_dark_white (cs : color_space_t) (alpha : ℚ) :
    color_is_dark ⟨cs, 1, 1, 1, alpha⟩ = false := by
  simp only [color_is_dark, double_luma_white, decide_eq_false_iff_not]
  norm_num

theorem color_is_dark_black (cs : color_space_t) (alpha : ℚ) :
    color_is_dark ⟨cs, 0, 0, 0, alpha⟩ = true := by
  simp only [color_is_dark, double_luma_black, decide_eq_true_eq]
  norm_num

theorem color_is_dark_cyan (cs : color_space_t) (alpha : ℚ) :
    color_is_dark ⟨cs, 0, 179 / 255, 199 / 255, alpha⟩ = true := by
  simp only [color_is_dark, double_luma_cyan, decide_eq_true_eq]
  norm_num

/-! ## Baseline colors of a theme -/

theorem example_entry_foreground :
    (parse_styles example_entry).foreground = color_info_t.rgba 1 0 0 1 := by
  have h : plist.get_string example_entry ["settings", "foreground"] = some ['#', 'F', '0', '0'] := by
    simp [example_entry, plist.get_string, plist.find_key_path, List.lookup]
  have hc := read_color_three 'F' '0' '0' (by decide) (by decide) (by decide)
  unfold parse_styles
  generalize plist.get_string example_entry ["scope"] = o₁
  generalize plist.get_string example_entry ["settings", "fontName"] = o₂
  generalize plist.get_string example_entry ["settings", "fontStyle"] = o₃
  cases o₁ <;> cases o₂ <;> cases o₃ <;>
    simp [get_key_path_color, h, hc, hexval_F, hexval_0] <;> split_ifs <;> simp

theorem example_entry_background :
    (parse_styles example_entry).background = color_info_t.rgba 1 1 1 (128 / 255) := by
  have h : plist.get_string example_entry ["settings", "background"]
      = some ['#', 'F', 'F', 'F', 'F', 'F', 'F', '8', '0'] := by
    simp [example_entry, plist.get_string, plist.find_key_path, List.lookup]
  have hc := read_color_eight 'F' 'F' 'F' 'F' 'F' 'F' '8' '0' (by decide) (by decide)
    (by decide) (by decide) (by decide) (by decide) (by decide) (by decide)
  rw [hexval_F, hexval_8, hexval_0] at hc
  have hc' : read_color ['#', 'F', 'F', 'F', 'F', 'F', 'F', '8', '0']
      = color_info_t.rgba 1 1 1 (128 / 255) := by
    rw [hc]; norm_num [color_info_t.rgba]
  unfold parse_styles
  generalize plist.get_string example_entry ["scope"] = o₁
  generalize plist.get_string example_entry ["settings", "fontName"] = o₂
  generalize plist.get_string example_entry ["settings", "fontStyle"] = o₃
  cases o₁ <;> cases o₂ <;> cases o₃ <;>
    simp [get_key_path_color, h, hc'] <;> split_ifs <;> simp

theorem example_entry_invisibles :
    (parse_styles example_entry).invisibles = color_info_t.rgba 0 0 1 1 := by
  have h : plist.get_string example_entry ["settings", "invisibles"] = some ['#', '0', '0', 'F'] := by
    simp [example_entry, plist.get_string, plist.find_key_path, List.lookup]
  have hc := read_color_three '0' '0' 'F' (by decide) (by decide) (by decide)
  unfold parse_styles
  generalize plist.get_string example_entry ["scope"] = o₁
  generalize plist.get_string example_entry ["settings", "fontName"] = o₂
  generalize plist.get_string example_entry ["settings", "fontStyle"] = o₃
  cases o₁ <;> cases o₂ <;> cases o₃ <;>
    simp [get_key_path_color, h, hc, hexval_F, hexval_0] <;> split_ifs <;> simp

theorem example_entry_selector :
    (parse_styles example_entry).scope_selector = "source".toList := by
  have h : plist.get_string example_entry ["scope"] = some "source".toList := by
    simp [example_entry, plist.get_string, plist.find_key_path, List.lookup]
  unfold parse_styles
  rw [h]
  generalize plist.get_string example_entry ["settings", "fontName"] = o₂
  generalize plist.get_string example_entry ["settings", "fontStyle"] = o₃
  cases o₂ <;> cases o₃ <;> simp <;> split_ifs <;> simp

theorem example_document_settings :
    plist.get_array example_document ["settings"] = some ([example_entry].map plist_t.dictionary) := by
  simp [example_document, plist.get_array, plist.find_key_path, List.lookup]

/-- C18 at the example document, whose one entry sets `invisibles`: two rules. -/
theorem setup_styles_rule_list_witness :
    plist.get_array example_document ["settings"] =
      some ([example_entry].map plist_t.dictionary) ∧
    (setup_styles (some example_document) gutter_styles_t.init)._styles =
      [example_entry].flatMap rules_of_entry ∧
    (setup_styles (some example_document) gutter_styles_t.init)._styles.length = 2 ∧
    (setup_styles (some example_document) gutter_styles_t.init)._styles.head? =
      some (parse_styles example_entry) := by
  have h := setup_styles_rule_list example_document [example_entry] gutter_styles_t.init
    example_document_settings
  refine ⟨example_document_settings, h.1, ?_, h.2.2.1⟩
  rw [h.2.1]
  simp [example_entry_invisibles, color_info_t.rgba, color_info_t.is_blank]

theorem hexval_B : hexval 'B' = 11 := by decide

theorem hexval_3 : hexval '3' = 3 := by decide

theorem hexval_C : hexval 'C' = 12 := by decide

theorem hexval_7 : hexval '7' = 7 := by decide

theorem example_cyan_entry_foreground :
    (parse_styles example_cyan_entry).foreground = color_info_t.rgba 0 0 0 1 := by
  have h : plist.get_string example_cyan_entry ["settings", "foreground"] =
      some ['#', '0', '0', '0'] := by
    simp [example_cyan_entry, plist.get_string, plist.find_key_path, List.lookup]
  have hc := read_color_three '0' '0' '0' (by decide) (by decide) (by decide)
  unfold parse_styles
  generalize plist.get_string example_cyan_entry ["scope"] = o₁
  generalize plist.get_string example_cyan_entry ["settings", "fontName"] = o₂
  generalize plist.get_string example_cyan_entry ["settings", "fontStyle"] = o₃
  cases o₁ <;> cases o₂ <;> cases o₃ <;>
    simp [get_key_path_color, h, hc, hexval_0] <;> split_ifs <;> simp

theorem example_cyan_entry_background :
    (parse_styles example_cyan_entry).background =
      color_info_t.rgba 0 (179 / 255) (199 / 255) 1 := by
  have h : plist.get_string example_cyan_entry ["settings", "background"]
      = some ['#', '0', '0', 'B', '3', 'C', '7'] := by
    simp [example_cyan_entry, plist.get_string, plist.find_key_path, List.lookup]
  have hc := read_color_six '0' '0' 'B' '3' 'C' '7' (by decide) (by decide) (by decide)
    (by decide) (by decide) (by decide)
  rw [hexval_0, hexval_B, hexval_3, hexval_C, hexval_7] at hc
  have hc' : read_color ['#', '0', '0', 'B', '3', 'C', '7']
      = color_info_t.rgba 0 (179 / 255) (199 / 255) 1 := by
    rw [hc]; norm_num [color_info_t.rgba]
  unfold parse_styles
  generalize plist.get_string example_cyan_entry ["scope"] = o₁
  generalize plist.get_string example_cyan_entry ["settings", "fontName"] = o₂
  generalize plist.get_string example_cyan_entry ["settings", "fontStyle"] = o₃
  cases o₁ <;> cases o₂ <;> cases o₃ <;>
    simp [get_key_path_color, h, hc'] <;> split_ifs <;> simp

theorem example_cyan_entry_invisibles :
    (parse_styles example_cyan_entry).invisibles = color_info_t.unset := by
  have h : plist.get_string example_cyan_entry ["settings", "invisibles"] = none := by
    simp [example_cyan_entry, plist.get_string, plist.find_key_path, List.lookup]
  unfold parse_styles
  generalize plist.get_string example_cyan_entry ["scope"] = o₁
  generalize plist.get_string example_cyan_entry ["settings", "fontName"] = o₂
  generalize plist.get_string example_cyan_entry ["settings", "fontStyle"] = o₃
  cases o₁ <;> cases o₂ <;> cases o₃ <;>
    simp [get_key_path_color, h, decomposed_style_t.init] <;> split_ifs <;> simp

theorem example_cyan_document_settings :
    plist.get_array example_cyan_document ["settings"] =
      some ([example_cyan_entry].map plist_t.dictionary) := by
  simp [example_cyan_document, plist.get_array, plist.find_key_path, List.lookup]

/-- The theme built from the document whose one rule is black on `#00B3C7`, whatever the
object held before. -/
theorem setup_styles_cyan_colors (old : gutter_styles_t) :
    (setup_styles (some example_cyan_document) old)._color_space = color_space_t.genericRGB ∧
    (setup_styles (some example_cyan_document) old)._foreground =
      ⟨color_space_t.genericRGB, 0, 0, 0, 1⟩ ∧
    (setup_styles (some example_cyan_document) old)._background =
      ⟨color_space_t.genericRGB, 0, 179 / 255, 199 / 255, 1⟩ := by
  have hstyles : item_styles (some example_cyan_document) = rules_of_entry example_cyan_entry := by
    have := item_styles_of_entries example_cyan_document [example_cyan_entry]
      example_cyan_document_settings
    simpa using this
  have hcs : item_color_space (some example_cyan_document) = color_space_t.genericRGB := by
    simp [item_color_space, example_cyan_document, plist.get_string, plist.find_key_path,
      List.lookup]
  refine ⟨hcs, ?_, ?_⟩
  · simp [setup_styles, hstyles, hcs, rules_of_entry, example_cyan_entry_invisibles, root_color,
      example_cyan_entry_foreground, OakColorCreateFromThemeColor, color_info_t.rgba,
      color_info_t.unset, color_info_t.is_blank]
  · simp [setup_styles, hstyles, hcs, rules_of_entry, example_cyan_entry_invisibles, root_color,
      example_cyan_entry_background, OakColorCreateFromThemeColor, color_info_t.rgba,
      color_info_t.unset, color_info_t.is_blank]

/-- C16 as stated fails: in the theme whose first rule has the background `#00B3C7` the
sum `0.30 r + 0.59 g + 0.11 b` of the baseline background `(0, 179/255, 199/255)` is
exactly one half, not below it, yet `is_dark` holds: theme.cc 41 takes the sum in
`double` arithmetic, where it comes to `0.49999999999999994`. -/
theorem is_dark_at_exact_half :
    (shared_styles_state.create (some example_cyan_document))._background =
      ⟨color_space_t.genericRGB, 0, 179 / 255, 199 / 255, 1⟩ ∧
    (3 / 10 : ℚ) * (shared_styles_state.create (some example_cyan_document))._background.red
      + (59 / 100 : ℚ)
        * (shared_styles_state.create (some example_cyan_document))._background.green
      + (11 / 100 : ℚ)
        * (shared_styles_state.create (some example_cyan_document))._background.blue
      = 1 / 2 ∧
    (shared_styles_state.create (some example_cyan_document))._is_dark = true ∧
    (shared_styles_state.create (some example_cyan_document))._is_dark ≠
      decide ((3 / 10 : ℚ)
          * (shared_styles_state.create (some example_cyan_document))._background.red
        + (59 / 100 : ℚ)
          * (shared_styles_state.create (some example_cyan_document))._background.green
        + (11 / 100 : ℚ)
          * (shared_styles_state.create (some example_cyan_document))._background.blue
        < 1 / 2) := by
  have hbg := (setup_styles_cyan_colors gutter_styles_t.init).2.2
  have hdark : (shared_styles_state.create (some example_cyan_document))._is_dark = true := by
    have h : (shared_styles_state.create (some example_cyan_document))._is_dark =
        color_is_dark (shared_styles_state.create (some example_cyan_document))._background :=
      rfl
    rw [h]
    unfold shared_styles_state.create
    rw [hbg, color_is_dark_cyan]
  refine ⟨hbg, ?_, hdark, ?_⟩
  · unfold shared_styles_state.create
    rw [hbg]
    norm_num
  · rw [hdark]
    unfold shared_styles_state.create
    rw [hbg]
    norm_num

/-- C16, amended: the baseline foreground and background of a theme are those of the
first rule of the rule list, whatever its selector, with opaque white for a blank
foreground and opaque black for a blank background, also when the list is empty.
`is_dark` holds exactly when the sum `0.30*r + 0.59*g + 0.11*b` of the baseline
background, taken in `double` arithmetic from left to right as theme.cc 41 does, is
below `0.5`, and `is_transparent` exactly when the alpha of the baseline background is
below 1. The theme without a theme item is white on black, dark and opaque; the example
document gives red on half-transparent white, not dark; the background `#00B3C7` is
dark. -/
theorem setup_styles_baseline (item : Option dictionary_t) (old : gutter_styles_t) :
    (setup_styles item old)._foreground =
      (match (setup_styles item old)._styles.head? with
       | none => ⟨(setup_styles item old)._color_space, 1, 1, 1, 1⟩
       | some first =>
         if first.foreground.is_blank then ⟨(setup_styles item old)._color_space, 1, 1, 1, 1⟩
         else ⟨(setup_styles item old)._color_space, first.foreground.red,
           first.foreground.green, first.foreground.blue, first.foreground.alpha⟩) ∧
    (setup_styles item old)._background =
      (match (setup_styles item old)._styles.head? with
       | none => ⟨(setup_styles item old)._color_space, 0, 0, 0, 1⟩
       | some first =>
         if first.background.is_blank then ⟨(setup_styles item old)._color_space, 0, 0, 0, 1⟩
         else ⟨(setup_styles item old)._color_space, first.background.red,
           first.background.green, first.background.blue, first.background.alpha⟩) ∧
    (setup_styles item old)._is_dark =
      decide (double_luma (setup_styles item old)._background.red
        (setup_styles item old)._background.green
        (setup_styles item old)._background.blue < 1 / 2) ∧
    (setup_styles item old)._is_transparent =
      decide ((setup_styles item old)._background.alpha < 1) ∧
    (setup_styles none old)._foreground = ⟨color_space_t.genericRGB, 1, 1, 1, 1⟩ ∧
    (setup_styles none old)._background = ⟨color_space_t.genericRGB, 0, 0, 0, 1⟩ ∧
    (setup_styles none old)._is_dark = true ∧
    (setup_styles none old)._is_transparent = false ∧
    ((setup_styles (some example_document) old)._styles.head?.map
      (fun first => first.scope_selector)) = some "source".toList ∧
    (setup_styles (some example_document) old)._foreground =
      ⟨color_space_t.genericRGB, 1, 0, 0, 1⟩ ∧
    (setup_styles (some example_document) old)._background =
      ⟨color_space_t.genericRGB, 1, 1, 1, 128 / 255⟩ ∧
    (setup_styles (some example_document) old)._is_dark = false ∧
    (setup_styles (some example_document) old)._is_transparent = true ∧
    (setup_styles (some example_cyan_document) old)._background =
      ⟨color_space_t.genericRGB, 0, 179 / 255, 199 / 255, 1⟩ ∧
    double_luma 0 (179 / 255) (199 / 255) = 9007199254740991 / 18014398509481984 ∧
    (setup_styles (some example_cyan_document) old)._is_dark = true := by
  have hstyles : item_styles (some example_document) = rules_of_entry example_entry := by
    have := item_styles_of_entries example_document [example_entry] example_document_settings
    simpa using this
  have hcs : item_color_space (some example_document) = color_space_t.genericRGB := by
    simp [item_color_space, example_document, plist.get_string, plist.find_key_path,
      List.lookup]
  have hfg : (setup_styles (some example_document) old)._foreground =
      ⟨color_space_t.genericRGB, 1, 0, 0, 1⟩ := by
    simp [setup_styles, hstyles, hcs, rules_of_entry, example_entry_invisibles, root_color,
      example_entry_foreground, OakColorCreateFromThemeColor, color_info_t.rgba,
      color_info_t.is_blank]
  have hbg : (setup_styles (some example_document) old)._background =
      ⟨color_space_t.genericRGB, 1, 1, 1, 128 / 255⟩ := by
    simp [setup_styles, hstyles, hcs, rules_of_entry, example_entry_invisibles, root_color,
      example_entry_background, OakColorCreateFromThemeColor, color_info_t.rgba,
      color_info_t.is_blank]
  have hnone : (setup_styles none old)._background = ⟨color_space_t.genericRGB, 0, 0, 0, 1⟩ := by
    simp [setup_styles, item_styles, item_color_space, root_color]
  have hcyan := (setup_styles_cyan_colors old).2.2
  have hdark : ∀ i, (setup_styles i old)._is_dark =
      color_is_dark (setup_styles i old)._background := fun _ => rfl
  have htrans : ∀ i, (setup_styles i old)._is_transparent =
      decide ((setup_styles i old)._background.alpha < 1) := fun _ => rfl
  refine ⟨?_, ?_, rfl, rfl, ?_, hnone, ?_, ?_, ?_, hfg, hbg, ?_, ?_, hcyan, double_luma_cyan,
    ?_⟩
  · simp only [setup_styles]
    cases item_styles item with
    | nil => simp [root_color]
    | cons first rest =>
      by_cases hb : first.foreground.is_blank = true <;>
        simp [root_color, OakColorCreateFromThemeColor, hb]
  · simp only [setup_styles]
    cases item_styles item with
    | nil => simp [root_color]
    | cons first rest =>
      by_cases hb : first.background.is_blank = true <;>
        simp [root_color, OakColorCreateFromThemeColor, hb]
  · simp [setup_styles, item_styles, item_color_space, root_color]
  · rw [hdark, hnone, color_is_dark_black]
  · rw [htrans, hnone]
    simp
  · have hst : (setup_styles (some example_document) old)._styles =
        rules_of_entry example_entry := hstyles
    rw [hst]
    simp [rules_of_entry, example_entry_invisibles, color_info_t.rgba, color_info_t.is_blank,
      example_entry_selector]
  · rw [hdark, hbg, color_is_dark_white]
  · rw [htrans, hbg]
    simp
    norm_num
  · rw [hdark, hcyan, color_is_dark_cyan]

/-! ## Gutter styles -/

theorem gutter_override_step_apply (gs : dictionary_t) (cs : color_space_t)
    (g : gutter_styles_t) (k : String × gutter_field) (f : gutter_field) :
    gutter_override_step gs cs g k f =
      if f = k.2 then
        (match plist.get_string gs [k.1] with
         | some text => OakColorCreateFromThemeColor (read_color text) cs
         | none => g f)
      else g f := by
  unfold gutter_override_step get_key_path_color
  cases plist.get_string gs [k.1] with
  | none => by_cases h : f = k.2 <;> simp [h]
  | some text => by_cases h : f = k.2 <;> simp [Function.update_apply, h]

theorem gutter_loop_apply (gs : dictionary_t) (cs : color_space_t) (g : gutter_styles_t)
    (f : gutter_field) :
    gutterKeys.foldl (gutter_override_step gs cs) g f =
      (match plist.get_string gs [f.key] with
       | some text => OakColorCreateFromThemeColor (read_color text) cs
       | none => g f) := by
  simp only [gutterKeys, List.foldl, gutter_override_step_apply]
  cases f <;> simp [gutter_field.key]

theorem gutter_overrides_apply (item : Option dictionary_t) (cs : color_space_t)
    (g : gutter_styles_t) (f : gutter_field) :
    gutter_overrides item cs g f =
      (match gutter_override item f.key with
       | some text => OakColorCreateFromThemeColor (read_color text) cs
       | none => g f) := by
  cases item with
  | none => simp [gutter_overrides, gutter_override]
  | some dict =>
    cases hd : plist.get_dictionary dict ["gutterSettings"] with
    | none => simp [gutter_overrides, gutter_override, hd]
    | some gs => simp [gutter_overrides, gutter_override, hd, gutter_loop_apply]

theorem gutter_fallbacks_apply (g : gutter_styles_t) :
    gutter_fallbacks g gutter_field.divider = g gutter_field.divider ∧
    gutter_fallbacks g gutter_field.foreground = g gutter_field.foreground ∧
    gutter_fallbacks g gutter_field.background = g gutter_field.background ∧
    gutter_fallbacks g gutter_field.selectionForeground = g gutter_field.selectionForeground ∧
    gutter_fallbacks g gutter_field.selectionBackground = g gutter_field.selectionBackground ∧
    gutter_fallbacks g gutter_field.selectionBorder =
      (g gutter_field.selectionBorder).or (gutter_fallbacks g gutter_field.divider) ∧
    gutter_fallbacks g gutter_field.icons =
      (g gutter_field.icons).or (gutter_fallbacks g gutter_field.foreground) ∧
    gutter_fallbacks g gutter_field.iconsHover =
      (g gutter_field.iconsHover).or (gutter_fallbacks g gutter_field.icons) ∧
    gutter_fallbacks g gutter_field.iconsPressed =
      (g gutter_field.iconsPressed).or (gutter_fallbacks g gutter_field.icons) ∧
    gutter_fallbacks g gutter_field.selectionIcons =
      (g gutter_field.selectionIcons).or (gutter_fallbacks g gutter_field.selectionForeground) ∧
    gutter_fallbacks g gutter_field.selectionIconsHover =
      (g gutter_field.selectionIconsHover).or (gutter_fallbacks g gutter_field.selectionIcons) ∧
    gutter_fallbacks g gutter_field.selectionIconsPressed =
      (g gutter_field.selectionIconsPressed).or
        (gutter_fallbacks g gutter_field.selectionIcons) := by
  simp [gutter_fallbacks, gutter_fallback, Function.update_apply]

theorem gutter_fallbacks_of_some (g : gutter_styles_t) (f : gutter_field) (c : CGColor)
    (h : g f = some c) : gutter_fallbacks g f = some c := by
  have hf := gutter_fallbacks_apply g
  cases f
  · rw [hf.1, h]
  · rw [hf.2.2.2.2.2.1, h]; rfl
  · rw [hf.2.1, h]
  · rw [hf.2.2.1, h]
  · rw [hf.2.2.2.2.2.2.1, h]; rfl
  · rw [hf.2.2.2.2.2.2.2.1, h]; rfl
  · rw [hf.2.2.2.2.2.2.2.2.1, h]; rfl
  · rw [hf.2.2.2.1, h]
  · rw [hf.2.2.2.2.1, h]
  · rw [hf.2.2.2.2.2.2.2.2.2.1, h]; rfl
  · rw [hf.2.2.2.2.2.2.2.2.2.2.1, h]; rfl
  · rw [hf.2.2.2.2.2.2.2.2.2.2.2, h]; rfl

theorem gutter_defaults_apply (old : gutter_styles_t) (fg bg : CGColor) :
    gutter_defaults old fg bg gutter_field.divider = some (OakColorCreateCopySoften fg (2 / 5)) ∧
    gutter_defaults old fg bg gutter_field.foreground =
      some (OakColorCreateCopySoften fg (1 / 2)) ∧
    gutter_defaults old fg bg gutter_field.background =
      some (OakColorCreateCopySoften bg (87 / 100)) ∧
    gutter_defaults old fg bg gutter_field.selectionForeground =
      some (OakColorCreateCopySoften fg (19 / 20)) ∧
    gutter_defaults old fg bg gutter_field.selectionBackground =
      some (OakColorCreateCopySoften bg (19 / 20)) ∧
    gutter_defaults old fg bg gutter_field.selectionBorder = old gutter_field.selectionBorder ∧
    gutter_defaults old fg bg gutter_field.icons = old gutter_field.icons ∧
    gutter_defaults old fg bg gutter_field.iconsHover = old gutter_field.iconsHover ∧
    gutter_defaults old fg bg gutter_field.iconsPressed = old gutter_field.iconsPressed ∧
    gutter_defaults old fg bg gutter_field.selectionIcons = old gutter_field.selectionIcons ∧
    gutter_defaults old fg bg gutter_field.selectionIconsHover =
      old gutter_field.selectionIconsHover ∧
    gutter_defaults old fg bg gutter_field.selectionIconsPressed =
      old gutter_field.selectionIconsPressed := by
  simp [gutter_defaults, Function.update_apply]

theorem soften_eq_by_own_darkness (c : CGColor) (f : ℚ) :
    OakColorCreateCopySoften c f = soften_by_theme (color_is_dark c) c f := by
  unfold OakColorCreateCopySoften soften_by_theme
  by_cases h : color_is_dark c = true
  · simp [h]
  · simp [h, mul_comm]

theorem setup_styles_gutter (item : Option dictionary_t) (old : gutter_styles_t) :
    (setup_styles item old)._gutter_styles =
      gutter_fallbacks (gutter_overrides item (setup_styles item old)._color_space
        (gutter_defaults old (setup_styles item old)._foreground
          (setup_styles item old)._background)) := rfl

theorem gutter_overrides_of_none (item : Option dictionary_t) (cs : color_space_t)
    (g : gutter_styles_t) (f : gutter_field) (h : gutter_override item f.key = none) :
    gutter_overrides item cs g f = g f := by
  rw [gutter_overrides_apply, h]

theorem gutter_overrides_of_some (item : Option dictionary_t) (cs : color_space_t)
    (g : gutter_styles_t) (f : gutter_field) (text : List Char)
    (h : gutter_override item f.key = some text) :
    gutter_overrides item cs g f = OakColorCreateFromThemeColor (read_color text) cs := by
  rw [gutter_overrides_apply, h]

theorem soften_white (cs : color_space_t) (f : ℚ) :
    OakColorCreateCopySoften ⟨cs, 1, 1, 1, 1⟩ f = ⟨cs, f, f, f, 1⟩ := by
  simp [OakColorCreateCopySoften, color_is_dark_white]

theorem setup_styles_none_colors (old : gutter_styles_t) :
    (setup_styles none old)._color_space = color_space_t.genericRGB ∧
    (setup_styles none old)._foreground = ⟨color_space_t.genericRGB, 1, 1, 1, 1⟩ ∧
    (setup_styles none old)._background = ⟨color_space_t.genericRGB, 0, 0, 0, 1⟩ ∧
    (setup_styles none old)._is_dark = true := by
  refine ⟨rfl, ?_, ?_, ?_⟩
  · simp [setup_styles, item_styles, item_color_space, root_color]
  · simp [setup_styles, item_styles, item_color_space, root_color]
  · have hbg : (setup_styles none old)._background = ⟨color_space_t.genericRGB, 0, 0, 0, 1⟩ := by
      simp [setup_styles, item_styles, item_color_space, root_color]
    have hdark : (setup_styles none old)._is_dark =
        color_is_dark (setup_styles none old)._background := rfl
    rw [hdark, hbg, color_is_dark_black]

theorem example_cyan_document_no_overrides (f : gutter_field) :
    gutter_override (some example_cyan_document) f.key = none := by
  simp [gutter_override, example_cyan_document, plist.get_dictionary, plist.find_key_path,
    List.lookup]

/-- C12 as stated fails: the theme without a theme item has no gutter overrides and is
dark (white on black), yet its gutter divider is the foreground darkened to
`(0.4,0.4,0.4)`, not the white that softening by the darkness of the theme gives. -/
theorem gutter_divider_not_softened_by_theme :
    gutter_override none "divider" = none ∧
    (shared_styles_state.create none)._is_dark = true ∧
    (shared_styles_state.create none)._gutter_styles gutter_field.divider =
      some ⟨color_space_t.genericRGB, 2 / 5, 2 / 5, 2 / 5, 1⟩ ∧
    soften_by_theme (shared_styles_state.create none)._is_dark
      (shared_styles_state.create none)._foreground (2 / 5) =
        ⟨color_space_t.genericRGB, 1, 1, 1, 1⟩ ∧
    (shared_styles_state.create none)._gutter_styles gutter_field.divider ≠
      some (soften_by_theme (shared_styles_state.create none)._is_dark
        (shared_styles_state.create none)._foreground (2 / 5)) := by
  have hc := setup_styles_none_colors gutter_styles_t.init
  have hdiv : (shared_styles_state.create none)._gutter_styles gutter_field.divider =
      some ⟨color_space_t.genericRGB, 2 / 5, 2 / 5, 2 / 5, 1⟩ := by
    unfold shared_styles_state.create
    rw [setup_styles_gutter, (gutter_fallbacks_apply _).1,
      gutter_overrides_of_none none _ _ gutter_field.divider rfl,
      (gutter_defaults_apply _ _ _).1, hc.2.1, soften_white]
  have hsoft : soften_by_theme (shared_styles_state.create none)._is_dark
      (shared_styles_state.create none)._foreground (2 / 5) =
        ⟨color_space_t.genericRGB, 1, 1, 1, 1⟩ := by
    unfold shared_styles_state.create
    rw [hc.2.2.2, hc.2.1]
    simp [soften_by_theme]
  refine ⟨rfl, hc.2.2.2, hdiv, hsoft, ?_⟩
  rw [hdiv, hsoft]
  simp
  norm_num

/-- C12, amended: for every theme with no gutter overrides the derived gutter colors are
divider = soften(foreground, 0.4), foreground = soften(foreground, 0.5), background =
soften(background, 0.87), selectionForeground = soften(foreground, 0.95) and
selectionBackground = soften(background, 0.95) of the baseline colors, where soften(c, f)
maps each of red, green and blue of `c` to `1 - f * (1 - channel)` when the color `c`
itself is dark (its sum `0.30*r + 0.59*g + 0.11*b`, taken in `double` arithmetic as
theme.cc 41 does, is below `0.5`) and to `f * channel` when it is not, keeping alpha; for
the two colors made from the background that is the darkness of the theme. The color
`#00B3C7`, whose exact sum is one half, is dark and is lightened. -/
theorem gutter_defaults_soften_by_own_darkness (item : Option dictionary_t)
    (old : gutter_styles_t) (h : ∀ f : gutter_field, gutter_override item f.key = none) :
    (setup_styles item old)._gutter_styles gutter_field.divider =
      some (soften_by_theme (color_is_dark (setup_styles item old)._foreground)
        (setup_styles item old)._foreground (2 / 5)) ∧
    (setup_styles item old)._gutter_styles gutter_field.foreground =
      some (soften_by_theme (color_is_dark (setup_styles item old)._foreground)
        (setup_styles item old)._foreground (1 / 2)) ∧
    (setup_styles item old)._gutter_styles gutter_field.background =
      some (soften_by_theme (setup_styles item old)._is_dark
        (setup_styles item old)._background (87 / 100)) ∧
    (setup_styles item old)._gutter_styles gutter_field.selectionForeground =
      some (soften_by_theme (color_is_dark (setup_styles item old)._foreground)
        (setup_styles item old)._foreground (19 / 20)) ∧
    (setup_styles item old)._gutter_styles gutter_field.selectionBackground =
      some (soften_by_theme (setup_styles item old)._is_dark
        (setup_styles item old)._background (19 / 20)) ∧
    (∀ c : CGColor, color_is_dark c =
      decide (double_luma c.red c.green c.blue < 1 / 2)) ∧
    color_is_dark ⟨color_space_t.genericRGB, 0, 179 / 255, 199 / 255, 1⟩ = true ∧
    OakColorCreateCopySoften ⟨color_space_t.genericRGB, 0, 179 / 255, 199 / 255, 1⟩ (87 / 100) =
      ⟨color_space_t.genericRGB, 1 - 87 / 100 * (1 - 0), 1 - 87 / 100 * (1 - 179 / 255),
        1 - 87 / 100 * (1 - 199 / 255), 1⟩ := by
  have hdark : (setup_styles item old)._is_dark =
      color_is_dark (setup_styles item old)._background := rfl
  refine ⟨?_, ?_, ?_, ?_, ?_, fun _ => rfl, color_is_dark_cyan _ _, ?_⟩
  · rw [setup_styles_gutter, (gutter_fallbacks_apply _).1,
      gutter_overrides_of_none _ _ _ _ (h gutter_field.divider),
      (gutter_defaults_apply _ _ _).1, soften_eq_by_own_darkness]
  · rw [setup_styles_gutter, (gutter_fallbacks_apply _).2.1,
      gutter_overrides_of_none _ _ _ _ (h gutter_field.foreground),
      (gutter_defaults_apply _ _ _).2.1, soften_eq_by_own_darkness]
  · rw [setup_styles_gutter, (gutter_fallbacks_apply _).2.2.1,
      gutter_overrides_of_none _ _ _ _ (h gutter_field.background),
      (gutter_defaults_apply _ _ _).2.2.1, soften_eq_by_own_darkness, hdark]
  · rw [setup_styles_gutter, (gutter_fallbacks_apply _).2.2.2.1,
      gutter_overrides_of_none _ _ _ _ (h gutter_field.selectionForeground),
      (gutter_defaults_apply _ _ _).2.2.2.1, soften_eq_by_own_darkness]
  · rw [setup_styles_gutter, (gutter_fallbacks_apply _).2.2.2.2.1,
      gutter_overrides_of_none _ _ _ _ (h gutter_field.selectionBackground),
      (gutter_defaults_apply _ _ _).2.2.2.2.1, soften_eq_by_own_darkness, hdark]
  · simp [OakColorCreateCopySoften, color_is_dark_cyan]

/-- C12 amended, at the theme without a theme item, white on black: the colors made from
the white foreground are darkened, those made from the black background lightened; and
at the theme black on `#00B3C7`, which is dark: its gutter background is the background
lightened. -/
theorem gutter_defaults_soften_by_own_darkness_witness :
    (∀ f : gutter_field, gutter_override none f.key = none) ∧
    (setup_styles none gutter_styles_t.init)._gutter_styles gutter_field.divider =
      some (soften_by_theme
        (color_is_dark (setup_styles none gutter_styles_t.init)._foreground)
        (setup_styles none gutter_styles_t.init)._foreground (2 / 5)) ∧
    (setup_styles none gutter_styles_t.init)._gutter_styles gutter_field.background =
      some (soften_by_theme (setup_styles none gutter_styles_t.init)._is_dark
        (setup_styles none gutter_styles_t.init)._background (87 / 100)) ∧
    (∀ f : gutter_field, gutter_override (some example_cyan_document) f.key = none) ∧
    (setup_styles (some example_cyan_document) gutter_styles_t.init)._gutter_styles
        gutter_field.background =
      some (soften_by_theme
        (setup_styles (some example_cyan_document) gutter_styles_t.init)._is_dark
        (setup_styles (some example_cyan_document) gutter_styles_t.init)._background
        (87 / 100)) ∧
    (setup_styles (some example_cyan_document) gutter_styles_t.init)._gutter_styles
        gutter_field.background =
      some ⟨color_space_t.genericRGB, 13 / 100, 1574 / 2125, 1719 / 2125, 1⟩ :=
  ⟨fun _ => rfl,
    (gutter_defaults_soften_by_own_darkness none gutter_styles_t.init (fun _ => rfl)).1,
    (gutter_defaults_soften_by_own_darkness none gutter_styles_t.init (fun _ => rfl)).2.2.1,
    example_cyan_document_no_overrides,
    (gutter_defaults_soften_by_own_darkness (some example_cyan_document) gutter_styles_t.init
      example_cyan_document_no_overrides).2.2.1,
    by
      have hdark : (setup_styles (some example_cyan_document) gutter_styles_t.init)._is_dark =
          color_is_dark
            (setup_styles (some example_cyan_document) gutter_styles_t.init)._background := rfl
      rw [(gutter_defaults_soften_by_own_darkness (some example_cyan_document)
        gutter_styles_t.init example_cyan_document_no_overrides).2.2.1, hdark,
        (setup_styles_cyan_colors gutter_styles_t.init).2.2, color_is_dark_cyan]
      simp [soften_by_theme]
      norm_num⟩

theorem create_gutter (item : Option dictionary_t) :
    (shared_styles_state.create item)._gutter_styles =
      gutter_fallbacks (gutter_overrides item (shared_styles_state.create item)._color_space
        (gutter_defaults gutter_styles_t.init (shared_styles_state.create item)._foreground
          (shared_styles_state.create item)._background)) := rfl

theorem create_fallback_member (item : Option dictionary_t) (f : gutter_field)
    (hnone : gutter_override item f.key = none)
    (hinit : ∀ fg bg : CGColor, gutter_defaults gutter_styles_t.init fg bg f = none) :
    gutter_overrides item (shared_styles_state.create item)._color_space
      (gutter_defaults gutter_styles_t.init (shared_styles_state.create item)._foreground
        (shared_styles_state.create item)._background) f = none := by
  rw [gutter_overrides_of_none _ _ _ _ hnone, hinit]

theorem create_decoded_override (item : Option dictionary_t) (f : gutter_field)
    (text : List Char) (h : gutter_override item f.key = some text)
    (hc : (read_color text).is_blank = false) :
    (shared_styles_state.create item)._gutter_styles f =
      some ⟨(shared_styles_state.create item)._color_space, (read_color text).red,
        (read_color text).green, (read_color text).blue, (read_color text).alpha⟩ := by
  rw [create_gutter]
  apply gutter_fallbacks_of_some
  rw [gutter_overrides_of_some _ _ _ _ _ h]
  simp [OakColorCreateFromThemeColor, hc]

/-- On a newly constructed object (`setup_styles` run for the first time, every member
of the gutter styles null before it): each color whose key has a
well-formed override is the decoded override, and each of the seven fallback colors
whose key has no override is the final value of its source: selectionBorder of divider,
icons of foreground, iconsHover and iconsPressed of icons, selectionIcons of
selectionForeground, selectionIconsHover and selectionIconsPressed of selectionIcons.
With only `icons` overridden, iconsHover and iconsPressed are the icons override and
selectionIcons is selectionForeground. -/
theorem create_overrides_and_fallbacks (item : Option dictionary_t) :
    (∀ (f : gutter_field) (text : List Char), gutter_override item f.key = some text →
      (read_color text).is_blank = false →
      (shared_styles_state.create item)._gutter_styles f =
        some ⟨(shared_styles_state.create item)._color_space, (read_color text).red,
          (read_color text).green, (read_color text).blue, (read_color text).alpha⟩) ∧
    (gutter_override item "selectionBorder" = none →
      (shared_styles_state.create item)._gutter_styles gutter_field.selectionBorder =
        (shared_styles_state.create item)._gutter_styles gutter_field.divider) ∧
    (gutter_override item "icons" = none →
      (shared_styles_state.create item)._gutter_styles gutter_field.icons =
        (shared_styles_state.create item)._gutter_styles gutter_field.foreground) ∧
    (gutter_override item "iconsHover" = none →
      (shared_styles_state.create item)._gutter_styles gutter_field.iconsHover =
        (shared_styles_state.create item)._gutter_styles gutter_field.icons) ∧
    (gutter_override item "iconsPressed" = none →
      (shared_styles_state.create item)._gutter_styles gutter_field.iconsPressed =
        (shared_styles_state.create item)._gutter_styles gutter_field.icons) ∧
    (gutter_override item "selectionIcons" = none →
      (shared_styles_state.create item)._gutter_styles gutter_field.selectionIcons =
        (shared_styles_state.create item)._gutter_styles gutter_field.selectionForeground) ∧
    (gutter_override item "selectionIconsHover" = none →
      (shared_styles_state.create item)._gutter_styles gutter_field.selectionIconsHover =
        (shared_styles_state.create item)._gutter_styles gutter_field.selectionIcons) ∧
    (gutter_override item "selectionIconsPressed" = none →
      (shared_styles_state.create item)._gutter_styles gutter_field.selectionIconsPressed =
        (shared_styles_state.create item)._gutter_styles gutter_field.selectionIcons) ∧
    (∀ text : List Char, gutter_override item "icons" = some text →
      (read_color text).is_blank = false →
      (∀ f : gutter_field, f ≠ gutter_field.icons → gutter_override item f.key = none) →
      (shared_styles_state.create item)._gutter_styles gutter_field.iconsHover =
        some ⟨(shared_styles_state.create item)._color_space, (read_color text).red,
          (read_color text).green, (read_color text).blue, (read_color text).alpha⟩ ∧
      (shared_styles_state.create item)._gutter_styles gutter_field.iconsPressed =
        some ⟨(shared_styles_state.create item)._color_space, (read_color text).red,
          (read_color text).green, (read_color text).blue, (read_color text).alpha⟩ ∧
      (shared_styles_state.create item)._gutter_styles gutter_field.selectionIcons =
        (shared_styles_state.create item)._gutter_styles gutter_field.selectionForeground) := by
  have hfb := gutter_fallbacks_apply
    (gutter_overrides item (shared_styles_state.create item)._color_space
      (gutter_defaults gutter_styles_t.init (shared_styles_state.create item)._foreground
        (shared_styles_state.create item)._background))
  have hinit := gutter_defaults_apply gutter_styles_t.init
  have h1 : gutter_override item "selectionBorder" = none →
      (shared_styles_state.create item)._gutter_styles gutter_field.selectionBorder =
        (shared_styles_state.create item)._gutter_styles gutter_field.divider := by
    intro h
    rw [create_gutter, hfb.2.2.2.2.2.1, create_fallback_member item
      gutter_field.selectionBorder h (fun fg bg => (hinit fg bg).2.2.2.2.2.1)]
    rfl
  have h2 : gutter_override item "icons" = none →
      (shared_styles_state.create item)._gutter_styles gutter_field.icons =
        (shared_styles_state.create item)._gutter_styles gutter_field.foreground := by
    intro h
    rw [create_gutter, hfb.2.2.2.2.2.2.1, create_fallback_member item
      gutter_field.icons h (fun fg bg => (hinit fg bg).2.2.2.2.2.2.1)]
    rfl
  have h3 : gutter_override item "iconsHover" = none →
      (shared_styles_state.create item)._gutter_styles gutter_field.iconsHover =
        (shared_styles_state.create item)._gutter_styles gutter_field.icons := by
    intro h
    rw [create_gutter, hfb.2.2.2.2.2.2.2.1, create_fallback_member item
      gutter_field.iconsHover h (fun fg bg => (hinit fg bg).2.2.2.2.2.2.2.1)]
    rfl
  have h4 : gutter_override item "iconsPressed" = none →
      (shared_styles_state.create item)._gutter_styles gutter_field.iconsPressed =
        (shared_styles_state.create item)._gutter_styles gutter_field.icons := by
    intro h
    rw [create_gutter, hfb.2.2.2.2.2.2.2.2.1, create_fallback_member item
      gutter_field.iconsPressed h (fun fg bg => (hinit fg bg).2.2.2.2.2.2.2.2.1)]
    rfl
  have h5 : gutter_override item "selectionIcons" = none →
      (shared_styles_state.create item)._gutter_styles gutter_field.selectionIcons =
        (shared_styles_state.create item)._gutter_styles gutter_field.selectionForeground := by
    intro h
    rw [create_gutter, hfb.2.2.2.2.2.2.2.2.2.1, create_fallback_member item
      gutter_field.selectionIcons h (fun fg bg => (hinit fg bg).2.2.2.2.2.2.2.2.2.1)]
    rfl
  have h6 : gutter_override item "selectionIconsHover" = none →
      (shared_styles_state.create item)._gutter_styles gutter_field.selectionIconsHover =
        (shared_styles_state.create item)._gutter_styles gutter_field.selectionIcons := by
    intro h
    rw [create_gutter, hfb.2.2.2.2.2.2.2.2.2.2.1, create_fallback_member item
      gutter_field.selectionIconsHover h (fun fg bg => (hinit fg bg).2.2.2.2.2.2.2.2.2.2.1)]
    rfl
  have h7 : gutter_override item "selectionIconsPressed" = none →
      (shared_styles_state.create item)._gutter_styles gutter_field.selectionIconsPressed =
        (shared_styles_state.create item)._gutter_styles gutter_field.selectionIcons := by
    intro h
    rw [create_gutter, hfb.2.2.2.2.2.2.2.2.2.2.2, create_fallback_member item
      gutter_field.selectionIconsPressed h (fun fg bg => (hinit fg bg).2.2.2.2.2.2.2.2.2.2.2)]
    rfl
  refine ⟨create_decoded_override item, h1, h2, h3, h4, h5, h6, h7, ?_⟩
  intro text htext hc hothers
  have hicons := create_decoded_override item gutter_field.icons text htext hc
  refine ⟨?_, ?_, h5 (hothers gutter_field.selectionIcons (by decide))⟩
  · rw [h3 (hothers gutter_field.iconsHover (by decide)), hicons]
  · rw [h4 (hothers gutter_field.iconsPressed (by decide)), hicons]

theorem example_gutter_icons :
    gutter_override (some example_gutter_document) "icons" = some ['#', 'F', '0', '0'] := by
  simp [gutter_override, example_gutter_document, plist.get_dictionary, plist.get_string,
    plist.find_key_path, List.lookup]

theorem example_gutter_others (f : gutter_field) (hf : f ≠ gutter_field.icons) :
    gutter_override (some example_gutter_document) f.key = none := by
  cases f <;>
    first
    | exact absurd rfl hf
    | simp [gutter_override, example_gutter_document, plist.get_dictionary, plist.get_string,
        plist.find_key_path, List.lookup, gutter_field.key]

theorem read_color_F00 : read_color ['#', 'F', '0', '0'] = color_info_t.rgba 1 0 0 1 := by
  rw [read_color_three 'F' '0' '0' (by decide) (by decide) (by decide), hexval_F, hexval_0]
  norm_num [color_info_t.rgba]

/-- The newly constructed object at the example document whose only gutter override is
`icons = #F00`: iconsHover and iconsPressed are that red, selectionIcons is
selectionForeground. -/
theorem create_overrides_and_fallbacks_example :
    gutter_override (some example_gutter_document) "icons" = some ['#', 'F', '0', '0'] ∧
    (read_color ['#', 'F', '0', '0']).is_blank = false ∧
    (shared_styles_state.create (some example_gutter_document))._gutter_styles
      gutter_field.iconsHover = some ⟨color_space_t.genericRGB, 1, 0, 0, 1⟩ ∧
    (shared_styles_state.create (some example_gutter_document))._gutter_styles
      gutter_field.iconsPressed = some ⟨color_space_t.genericRGB, 1, 0, 0, 1⟩ ∧
    (shared_styles_state.create (some example_gutter_document))._gutter_styles
      gutter_field.selectionIcons =
        (shared_styles_state.create (some example_gutter_document))._gutter_styles
          gutter_field.selectionForeground := by
  have hb : (read_color ['#', 'F', '0', '0']).is_blank = false := by
    rw [read_color_F00]; rfl
  have h := (create_overrides_and_fallbacks (some example_gutter_document)).2.2.2.2.2.2.2.2
    ['#', 'F', '0', '0'] example_gutter_icons hb example_gutter_others
  have hcs : (shared_styles_state.create (some example_gutter_document))._color_space =
      color_space_t.genericRGB := by
    simp [shared_styles_state.create, setup_styles, item_color_space, example_gutter_document,
      plist.get_string, plist.find_key_path, List.lookup]
  rw [read_color_F00, hcs] at h
  exact ⟨example_gutter_icons, hb, h.1, h.2.1, h.2.2⟩

theorem read_color_garbage : read_color "garbage".toList = color_info_t.unset :=
  read_color_of_no_hash _ (by intro t h; simp at h)

theorem create_gutterless_colors (doc : dictionary_t)
    (hs : plist.get_array doc ["settings"] = none)
    (hc : plist.get_string doc ["colorSpaceName"] = none) :
    (shared_styles_state.create (some doc))._color_space = color_space_t.genericRGB ∧
    (shared_styles_state.create (some doc))._foreground =
      ⟨color_space_t.genericRGB, 1, 1, 1, 1⟩ := by
  constructor
  · simp [shared_styles_state.create, setup_styles, item_color_space, hc]
  · simp [shared_styles_state.create, setup_styles, item_color_space, hc, item_styles, hs,
      root_color]

/-- C14 fails on the code at a theme document whose `gutterSettings` holds
`divider = garbage`: the text is not a color, and the member `divider` is left null, and
with it `selectionBorder`, which falls back to it. With the key removed both are the
softened foreground `(0.4,0.4,0.4)`, so the two palettes differ and not all twelve
colors are defined. -/
theorem malformed_divider_is_null :
    gutter_override (some example_malformed_document) "divider" = some "garbage".toList ∧
    (read_color "garbage".toList).is_blank = true ∧
    (shared_styles_state.create (some example_malformed_document))._gutter_styles
      gutter_field.divider = none ∧
    (shared_styles_state.create (some example_malformed_document))._gutter_styles
      gutter_field.selectionBorder = none ∧
    gutter_override (some example_removed_document) "divider" = none ∧
    (shared_styles_state.create (some example_removed_document))._gutter_styles
      gutter_field.divider = some ⟨color_space_t.genericRGB, 2 / 5, 2 / 5, 2 / 5, 1⟩ ∧
    (shared_styles_state.create (some example_removed_document))._gutter_styles
      gutter_field.selectionBorder = some ⟨color_space_t.genericRGB, 2 / 5, 2 / 5, 2 / 5, 1⟩ := by
  have hov : gutter_override (some example_malformed_document) "divider"
      = some "garbage".toList := by
    simp [gutter_override, example_malformed_document, plist.get_dictionary, plist.get_string,
      plist.find_key_path, List.lookup]
  have hsb : gutter_override (some example_malformed_document) "selectionBorder" = none := by
    simp [gutter_override, example_malformed_document, plist.get_dictionary, plist.get_string,
      plist.find_key_path, List.lookup]
  have hrm : ∀ key : String, gutter_override (some example_removed_document) key = none := by
    intro key
    simp [gutter_override, example_removed_document, plist.get_dictionary, plist.get_string,
      plist.find_key_path, List.lookup]
  have hdiv : (shared_styles_state.create (some example_malformed_document))._gutter_styles
      gutter_field.divider = none := by
    rw [create_gutter, (gutter_fallbacks_apply _).1,
      gutter_overrides_of_some _ _ _ gutter_field.divider _ hov, read_color_garbage]
    rfl
  have hcr := create_gutterless_colors example_removed_document
    (by simp [example_removed_document, plist.get_array, plist.find_key_path, List.lookup])
    (by simp [example_removed_document, plist.get_string, plist.find_key_path, List.lookup])
  have hdiv' : (shared_styles_state.create (some example_removed_document))._gutter_styles
      gutter_field.divider = some ⟨color_space_t.genericRGB, 2 / 5, 2 / 5, 2 / 5, 1⟩ := by
    rw [create_gutter, (gutter_fallbacks_apply _).1,
      gutter_overrides_of_none _ _ _ gutter_field.divider (hrm _),
      (gutter_defaults_apply _ _ _).1, hcr.2, soften_white]
  refine ⟨hov, ?_, hdiv, ?_, hrm _, hdiv', ?_⟩
  · rw [read_color_garbage]; rfl
  · have h := hdiv
    rw [create_gutter, (gutter_fallbacks_apply _).1] at h
    rw [create_gutter, (gutter_fallbacks_apply _).2.2.2.2.2.1, (gutter_fallbacks_apply _).1,
      h, create_fallback_member (some example_malformed_document)
        gutter_field.selectionBorder hsb
        (fun fg bg => (gutter_defaults_apply gutter_styles_t.init fg bg).2.2.2.2.2.1)]
    rfl
  · have h := hdiv'
    rw [create_gutter, (gutter_fallbacks_apply _).1] at h
    rw [create_gutter, (gutter_fallbacks_apply _).2.2.2.2.2.1, (gutter_fallbacks_apply _).1,
      h, create_fallback_member (some example_removed_document)
        gutter_field.selectionBorder (hrm _)
        (fun fg bg => (gutter_defaults_apply gutter_styles_t.init fg bg).2.2.2.2.2.1)]
    rfl

/-- On a second run of `setup_styles` a fallback member with no override keeps the color
it had before the run, whatever its source has become. -/
theorem setup_styles_rerun_keeps_fallback (item : Option dictionary_t)
    (old : gutter_styles_t) (c : CGColor)
    (hold : old gutter_field.selectionBorder = some c)
    (h : gutter_override item "selectionBorder" = none) :
    (setup_styles item old)._gutter_styles gutter_field.selectionBorder = some c := by
  rw [setup_styles_gutter]
  apply gutter_fallbacks_of_some
  rw [gutter_overrides_of_none _ _ _ gutter_field.selectionBorder h,
    (gutter_defaults_apply _ _ _).2.2.2.2.2.1, hold]

theorem example_blank_document_no_overrides (f : gutter_field) :
    gutter_override (some example_blank_document) f.key = none := by
  simp [gutter_override, example_blank_document, plist.get_dictionary, plist.find_key_path,
    List.lookup]

/-- The object constructed at the document with no rules and no gutter settings: the
divider is the white foreground darkened to `(0.4,0.4,0.4)` and the selection border
falls back to it. -/
theorem create_blank_divider :
    (shared_styles_state.create (some example_blank_document))._gutter_styles
      gutter_field.divider = some ⟨color_space_t.genericRGB, 2 / 5, 2 / 5, 2 / 5, 1⟩ ∧
    (shared_styles_state.create (some example_blank_document))._gutter_styles
      gutter_field.selectionBorder =
        some ⟨color_space_t.genericRGB, 2 / 5, 2 / 5, 2 / 5, 1⟩ := by
  have hfg := (create_gutterless_colors example_blank_document rfl rfl).2
  have hdiv : (shared_styles_state.create (some example_blank_document))._gutter_styles
      gutter_field.divider = some ⟨color_space_t.genericRGB, 2 / 5, 2 / 5, 2 / 5, 1⟩ := by
    rw [create_gutter, (gutter_fallbacks_apply _).1,
      gutter_overrides_of_none _ _ _ _ (example_blank_document_no_overrides _),
      (gutter_defaults_apply _ _ _).1, hfg, soften_white]
  refine ⟨hdiv, ?_⟩
  rw [create_gutter] at hdiv
  rw [create_gutter, (gutter_fallbacks_apply _).2.2.2.2.2.1, hdiv,
    gutter_overrides_of_none _ _ _ _ (example_blank_document_no_overrides _),
    (gutter_defaults_apply _ _ _).2.2.2.2.2.1]
  rfl

/-- The divider that `setup_styles` makes at the document black on `#00B3C7`, whatever the
object held before: the black foreground lightened to `(0.6,0.6,0.6)`. -/
theorem setup_styles_cyan_divider (old : gutter_styles_t) :
    (setup_styles (some example_cyan_document) old)._gutter_styles gutter_field.divider =
      some ⟨color_space_t.genericRGB, 3 / 5, 3 / 5, 3 / 5, 1⟩ := by
  rw [setup_styles_gutter, (gutter_fallbacks_apply _).1,
    gutter_overrides_of_none _ _ _ _ (example_cyan_document_no_overrides _),
    (gutter_defaults_apply _ _ _).1, (setup_styles_cyan_colors old).2.1]
  simp [OakColorCreateCopySoften, color_is_dark_black]
  norm_num

/-- C13 fails on the code when `setup_styles` runs again on the same object, as it does
at every change of the bundles (the callback of theme.cc 202-206). The object is
constructed when the document of its theme item has no rules and no gutter settings: the
divider and the selection border are `(0.4,0.4,0.4)`. The document then becomes the one
whose rule is black on `#00B3C7`, still with no gutter settings, and `setup_styles` runs
again: the divider becomes `(0.6,0.6,0.6)`, but the selection border, which has no
override, keeps `(0.4,0.4,0.4)` and is not the final value of its source, the divider.
An object newly constructed at the second document has both at `(0.6,0.6,0.6)`. -/
theorem rerun_keeps_stale_selection_border :
    gutter_override (some example_cyan_document) "selectionBorder" = none ∧
    gutter_override (some example_cyan_document) "divider" = none ∧
    (shared_styles_state.create (some example_blank_document))._gutter_styles
      gutter_field.selectionBorder =
        some ⟨color_space_t.genericRGB, 2 / 5, 2 / 5, 2 / 5, 1⟩ ∧
    (setup_styles (some example_cyan_document)
      (shared_styles_state.create (some example_blank_document))._gutter_styles)._gutter_styles
      gutter_field.divider = some ⟨color_space_t.genericRGB, 3 / 5, 3 / 5, 3 / 5, 1⟩ ∧
    (setup_styles (some example_cyan_document)
      (shared_styles_state.create (some example_blank_document))._gutter_styles)._gutter_styles
      gutter_field.selectionBorder =
        some ⟨color_space_t.genericRGB, 2 / 5, 2 / 5, 2 / 5, 1⟩ ∧
    (setup_styles (some example_cyan_document)
      (shared_styles_state.create (some example_blank_document))._gutter_styles)._gutter_styles
      gutter_field.selectionBorder ≠
    (setup_styles (some example_cyan_document)
      (shared_styles_state.create (some example_blank_document))._gutter_styles)._gutter_styles
      gutter_field.divider ∧
    (shared_styles_state.create (some example_cyan_document))._gutter_styles
      gutter_field.divider = some ⟨color_space_t.genericRGB, 3 / 5, 3 / 5, 3 / 5, 1⟩ ∧
    (shared_styles_state.create (some example_cyan_document))._gutter_styles
      gutter_field.selectionBorder =
        some ⟨color_space_t.genericRGB, 3 / 5, 3 / 5, 3 / 5, 1⟩ := by
  have hold := create_blank_divider.2
  have hdiv := setup_styles_cyan_divider
    (shared_styles_state.create (some example_blank_document))._gutter_styles
  have hsel := setup_styles_rerun_keeps_fallback (some example_cyan_document)
    (shared_styles_state.create (some example_blank_document))._gutter_styles _ hold
    (example_cyan_document_no_overrides gutter_field.selectionBorder)
  have hnew : (shared_styles_state.create (some example_cyan_document))._gutter_styles
      gutter_field.divider = some ⟨color_space_t.genericRGB, 3 / 5, 3 / 5, 3 / 5, 1⟩ :=
    setup_styles_cyan_divider gutter_styles_t.init
  refine ⟨example_cyan_document_no_overrides gutter_field.selectionBorder,
    example_cyan_document_no_overrides gutter_field.divider, hold, hdiv, hsel, ?_, hnew, ?_⟩
  · rw [hsel, hdiv]
    simp
    norm_num
  · rw [create_gutter] at hnew
    rw [create_gutter, (gutter_fallbacks_apply _).2.2.2.2.2.1, hnew,
      gutter_overrides_of_none _ _ _ _ (example_cyan_document_no_overrides _),
      (gutter_defaults_apply _ _ _).2.2.2.2.2.1]
    rfl

end Theme
